import Mathlib

/-!
Verification development for the SnipeTrade crypto scanner / trade-plan
factory.  Each Python module relevant to the checked properties is shallowly
embedded: floats are modelled as exact rationals (`ℚ`), Python `dict`s as
insertion-ordered association lists, fallible code as `Except String`, and
the one genuinely irrational float operation (`0.5 ** x` in the freshness
weight) is kept as an explicit function parameter.  Strings that the code
builds only for human consumption (reason texts with interpolated numbers)
are modelled with fixed literals; their content never feeds back into any
control flow.

The file is laid out as: all definitions (one namespace per Python module),
then all lemmas and theorems.
-/

set_option maxHeartbeats 1000000

namespace SnipeTrade

/-! ### Python primitives -/

/-- Python's builtin `round` on a rational number: round half to even. -/
def pyRound (q : ℚ) : ℤ :=
  let f := ⌊q⌋
  let r := q - f
  if r < 1/2 then f
  else if 1/2 < r then f + 1
  else if f % 2 = 0 then f else f + 1

/-- Python's `int(x)` on a float: truncation toward zero. -/
def pyTrunc (q : ℚ) : ℤ :=
  if 0 ≤ q then ⌊q⌋ else -⌊-q⌋

/-- A float value that is either finite or `float("inf")`; the code produces
infinities for invalid entry distances and spreads and immediately compares
them against finite configuration bounds. -/
inductive Flt where
  | fin : ℚ → Flt
  | inf : Flt
deriving DecidableEq

/-- `<` on possibly-infinite floats. -/
def Flt.lt : Flt → Flt → Bool
  | fin a, fin b => a < b
  | fin _, inf => true
  | inf, _ => false

/-- `≤` on possibly-infinite floats. -/
def Flt.le : Flt → Flt → Bool
  | fin a, fin b => a ≤ b
  | fin _, inf => true
  | inf, fin _ => false
  | inf, inf => true

/-- Insertion-ordered association-list read, mirroring Python's `dict.get`:
the value stored under the first matching key. -/
def dictGet {K V : Type} [DecidableEq K] (store : List (K × V)) (k : K) : Option V :=
  (store.find? (fun p => p.1 = k)).map (fun p => p.2)

/-- Python `dict` assignment: replace the value in place when the key exists,
otherwise append, preserving insertion order. -/
def dictSet {K V : Type} [DecidableEq K] : List (K × V) → K → V → List (K × V)
  | [], k, v => [(k, v)]
  | (k0, v0) :: t, k, v =>
    if k0 = k then (k, v) :: t else (k0, v0) :: dictSet t k v

/-- Python `dict.pop(key, None)`'s removal effect: drop the key. -/
def dictRemove {K V : Type} [DecidableEq K] (store : List (K × V)) (k : K) : List (K × V) :=
  store.filter (fun p => !(p.1 = k : Bool))

/-- `str.upper()` on a Lean `String` (character-wise, as CPython does for the
ASCII identifiers the scanner feeds it). -/
def pyUpperStr (s : String) : String :=
  ⟨s.data.map Char.toUpper⟩

/-- `str.lower()` on a Lean `String`. -/
def pyLowerStr (s : String) : String :=
  ⟨s.data.map Char.toLower⟩

/-! ### `utils/symbols.py` — symbol normalisation for exchanges -/

namespace Symbols

/-- Python strings are modelled as character lists. -/
abbrev Str := List Char

/-- `str.strip()`: drop surrounding whitespace. -/
def pyStrip (s : Str) : Str :=
  ((s.dropWhile Char.isWhitespace).reverse.dropWhile Char.isWhitespace).reverse

/-- `str.replace("-", "/")` for the single-character pattern. -/
def replaceDash (s : Str) : Str :=
  s.map (fun c => if c = '-' then '/' else c)

/-- `str.upper()` (ASCII behaviour, which is all the scanner feeds it). -/
def pyUpper (s : Str) : Str :=
  s.map Char.toUpper

/-- `str.split("/")`. -/
def splitSlash : Str → List Str
  | [] => [[]]
  | c :: cs =>
    match splitSlash cs with
    | [] => [[c]]
    | p :: ps => if c = '/' then [] :: p :: ps else (c :: p) :: ps

/-- `normalize_symbol_for_exchange` from `snipetrade/utils/symbols.py`: strip,
replace `-` with `/`, uppercase, split on `/`, keep nonempty parts, and join
the first part with the second (default quote `USDT`). -/
def normalize_symbol_for_exchange (symbol : Str) : Except String Str :=
  let cleaned := pyStrip symbol
  if cleaned = [] then .error "Symbol cannot be empty"
  else
    let normalized := pyUpper (replaceDash cleaned)
    let parts := (splitSlash normalized).filter (fun p => !p.isEmpty)
    match parts with
    | [] => .error "Symbol must contain at least a base asset"
    | base :: rest =>
      let quote := match rest with
        | q :: _ => q
        | [] => "USDT".data
      .ok (base ++ '/' :: quote)

end Symbols

/-! ### `utils/cache.py` — the TTL cache -/

namespace Cache

/-- `_CacheEntry`: a stored value together with its absolute expiry time.
`datetime` instants are modelled as integers. -/
structure CacheEntry (V : Type) where
  value : V
  expires_at : ℤ
deriving DecidableEq

/-- `TTLCache`: default TTL plus the backing store. -/
structure TTLCache (K V : Type) where
  default_ttl : ℤ
  store : List (K × CacheEntry V)
deriving DecidableEq

/-- `TTLCache.__init__`: rejects non-positive default TTLs. -/
def mkTTLCache (K V : Type) (ttl_seconds : ℤ) : Except String (TTLCache K V) :=
  if ttl_seconds ≤ 0 then .error "ttl_seconds must be greater than zero"
  else .ok ⟨ttl_seconds, []⟩

/-- `TTLCache.get`: a hit only when the entry exists and has not expired;
an expired entry is removed lazily and reads as absent. -/
def TTLCache.get {K V : Type} [DecidableEq K] (c : TTLCache K V) (now : ℤ) (k : K) :
    Option V × TTLCache K V :=
  match dictGet c.store k with
  | none => (none, c)
  | some e =>
    if e.expires_at ≤ now then (none, { c with store := dictRemove c.store k })
    else (some e.value, c)

/-- `TTLCache.set`: store under `key` for `ttl` seconds (default TTL when the
argument is omitted); non-positive TTLs raise. -/
def TTLCache.set {K V : Type} [DecidableEq K] (c : TTLCache K V) (now : ℤ) (k : K) (v : V)
    (ttl : Option ℤ) : Except String (TTLCache K V) :=
  let ttl_seconds := ttl.getD c.default_ttl
  if ttl_seconds ≤ 0 then .error "ttl must be greater than zero"
  else .ok { c with store := dictSet c.store k ⟨v, now + ttl_seconds⟩ }

/-- `TTLCache.pop`: remove the entry and return the stored value whenever the
key is present, with no expiry check. -/
def TTLCache.pop {K V : Type} [DecidableEq K] (c : TTLCache K V) (k : K) :
    Option V × TTLCache K V :=
  (match dictGet c.store k with
   | some e => some e.value
   | none => none,
   { c with store := dictRemove c.store k })

/-- `TTLCache.clear`. -/
def TTLCache.clear {K V : Type} (c : TTLCache K V) : TTLCache K V :=
  { c with store := [] }

/-- One timed cache operation, for stating history properties. -/
inductive CacheOp (K V : Type) where
  | set (k : K) (v : V) (ttl : Option ℤ)
  | get (k : K)
  | pop (k : K)
  | clear

/-- Apply one operation at a given instant.  A `set` whose TTL is rejected
raises before mutating anything, so the cache is unchanged. -/
def applyOp {K V : Type} [DecidableEq K] (c : TTLCache K V) (t : ℤ) :
    CacheOp K V → TTLCache K V
  | .set k v ttl =>
    match c.set t k v ttl with
    | .ok c2 => c2
    | .error _ => c
  | .get k => (c.get t k).2
  | .pop k => (c.pop k).2
  | .clear => c.clear

/-- Run a timed operation history. -/
def runOps {K V : Type} [DecidableEq K] (c : TTLCache K V) :
    List (ℤ × CacheOp K V) → TTLCache K V
  | [] => c
  | (t, op) :: rest => runOps (applyOp c t op) rest

end Cache

/-! ### `planner/execution.py` — execution hints -/

namespace Execution

/-- The `near` / `far` argument dicts of `decide_execution`; absent keys are
`none` and `dict.get` defaults are applied at the read site. -/
structure EntryLeg where
  type : Option String
  price : Option ℚ
  post_only : Option Bool
  reason : Option String
deriving DecidableEq

/-- The config object; `getattr(cfg, "ENTRY_TIMEOUT_SEC", 60)` defaults to 60
when the attribute is missing. -/
structure ExecCfg where
  ENTRY_TIMEOUT_SEC : Option ℚ
deriving DecidableEq

/-- `_timeout_ms`: `int(getattr(cfg, "ENTRY_TIMEOUT_SEC", 60) * 1000)`. -/
def timeoutMs (cfg : ExecCfg) : ℤ :=
  pyTrunc ((cfg.ENTRY_TIMEOUT_SEC.getD 60) * 1000)

/-- The `near_plan` result dict. -/
structure NearPlan where
  type : Option String
  price : Option ℚ
  post_only : Bool
  valid_until_ms : Option ℤ
  reason : String
deriving DecidableEq

/-- The `far_plan` result dict; `valid_until_ms = none` models the key being
absent. -/
structure FarPlan where
  type : Option String
  price : Option ℚ
  post_only : Bool
  reason : String
  valid_until_ms : Option ℤ
deriving DecidableEq

/-- The maker-timeout fallback record. -/
structure FallbackRec where
  activate_after_ms : ℤ
  type : String
  price : Option ℚ
  reason : String
deriving DecidableEq

/-- Result bundle of `decide_execution`. -/
structure ExecutionHints where
  near_plan : NearPlan
  far_plan : FarPlan
  fallback : Option FallbackRec
deriving DecidableEq

/-- `decide_execution` from `snipetrade/planner/execution.py`. -/
def decide_execution (near far : EntryLeg) (now_ts_ms : ℤ) (cfg : ExecCfg) : ExecutionHints :=
  let timeout := timeoutMs cfg
  let near_plan : NearPlan :=
    { type := near.type, price := near.price, post_only := near.post_only.getD false,
      valid_until_ms := if near.type = some "limit" then some (now_ts_ms + timeout) else none,
      reason := near.reason.getD "" }
  let fallback : Option FallbackRec :=
    if near.type = some "limit" then
      some { activate_after_ms := timeout, type := "stop", price := near.price,
             reason := "maker_timeout" }
    else none
  let far_plan0 : FarPlan :=
    { type := far.type, price := far.price, post_only := far.post_only.getD false,
      reason := far.reason.getD "", valid_until_ms := none }
  let far_plan :=
    if far.type = some "limit" ∧ near.type ≠ some "limit" ∧ fallback ≠ none then
      { far_plan0 with valid_until_ms := some (now_ts_ms + timeout) }
    else far_plan0
  { near_plan := near_plan, far_plan := far_plan, fallback := fallback }

end Execution

/-! ### `outputs/autotraders/phemex_client.py` — the in-memory paper venue -/

namespace Phemex

/-- An order payload dict as produced by `order_builder`; absent keys are
`none`. -/
structure VenueOrder where
  symbol : Option String
  side : Option String
  type : Option String
  price : Option ℚ
  stopPx : Option ℚ
  quantity : Option ℚ
  timeInForce : Option String
  postOnly : Option Bool
  reduceOnly : Option Bool
deriving DecidableEq

/-- `_OrderRecord`. -/
structure OrderRecord where
  order : VenueOrder
  idempotency_key : String
  order_id : String
  status : String
  filled_qty : ℚ
  avg_price : Option ℚ
  created_ts : ℚ
deriving DecidableEq

/-- The dict returned by `_serialise`: the order payload plus the bookkeeping
fields merged on top. -/
structure OrderPayload where
  order : VenueOrder
  orderID : String
  idempotencyKey : String
  status : String
  filledQty : ℚ
  avgPx : Option ℚ
  timestamp : ℚ
deriving DecidableEq

/-- The mutable state of a `PaperPhemexClient`. -/
structure PaperState where
  orders : List (String × OrderRecord)
  id_map : List (String × String)
deriving DecidableEq

/-- `PaperPhemexClient._serialise`. -/
def serialise (r : OrderRecord) : OrderPayload :=
  ⟨r.order, r.order_id, r.idempotency_key, r.status, r.filled_qty, r.avg_price, r.created_ts⟩

/-- `PaperPhemexClient.place`.  `uuid.uuid4()` and `time.time()` are supplied
as the `new_order_id` and `now` arguments; a `KeyError` on a dangling id-map
entry is an `error`. -/
def place (s : PaperState) (order : VenueOrder) (idempotency_key : String)
    (new_order_id : String) (now : ℚ) : Except String (OrderPayload × PaperState) :=
  match dictGet s.id_map idempotency_key with
  | some oid =>
    match dictGet s.orders oid with
    | some record => .ok (serialise record, s)
    | none => .error "KeyError"
  | none =>
    let record : OrderRecord :=
      { order := order, idempotency_key := idempotency_key, order_id := new_order_id,
        status := if order.type = some "LIMIT" ∨ order.type = some "STOP" then "working"
                  else "filled",
        filled_qty := 0, avg_price := none, created_ts := now }
    .ok (serialise record,
         { orders := dictSet s.orders new_order_id record,
           id_map := dictSet s.id_map idempotency_key new_order_id })

end Phemex

/-! ### `quality/gates.py` — the quality gates -/

namespace Gates

/-- `TradeDirection` from `snipetrade/models.py`. -/
inductive TradeDirection where
  | LONG
  | SHORT
  | NEUTRAL
deriving DecidableEq

/-- The `confluence_weights` dict; only these eight keys are ever read
(each via `weights.get(key, 0)`), so the dict is modelled as a record. -/
structure ConfluenceWeights where
  tf_align : ℚ
  ob_quality : ℚ
  fvg_presence : ℚ
  bos_choch : ℚ
  freshness : ℚ
  rr_strength : ℚ
  atr_sweetspot : ℚ
  regime_bias : ℚ
deriving DecidableEq

/-- `QualityGatesConfig`. -/
structure QualityGatesConfig where
  min_rr : ℚ
  entry_distance_pct : ℚ × ℚ
  freshness_half_life_min : ℚ
  max_setup_age_min : ℚ
  min_volume_usd : ℚ
  max_spread_bps : ℚ
  min_confluence : ℤ
  min_score : ℚ
  max_setups : ℤ
  confluence_weights : ConfluenceWeights
deriving DecidableEq

/-- `SetupCandidate`; `structure_flags` keeps the dict as an insertion-ordered
association list. -/
structure SetupCandidate where
  symbol : String
  timeframe : String
  direction : TradeDirection
  price_current : ℚ
  orderbook_bid : ℚ
  orderbook_ask : ℚ
  volume_usd_24h : ℚ
  atr_pct : ℚ
  minutes_old : ℚ
  entry_near : ℚ
  entry_stop : ℚ
  entry_tp1 : ℚ
  structure_flags : List (String × Bool)
  phemex_listed : Bool
  regime : String
  touched_tfs : List String
  ob_quality : Option ℚ
  metadata : List (String × ℚ)
deriving DecidableEq

/-- `SetupCandidate.confluence_count`: the number of `True` structure flags
(over every key in the dict). -/
def confluence_count (c : SetupCandidate) : ℕ :=
  (c.structure_flags.filter (fun p => p.2)).length

/-- `flags.get(key, False)` (a lookup with no default also yields a falsy
`None`). -/
def flagsGet (flags : List (String × Bool)) (k : String) : Bool :=
  (dictGet flags k).getD false

/-- `GateDecision`. -/
structure GateDecision where
  candidate : SetupCandidate
  rr : ℚ
  entry_distance_pct : Flt
  spread_bps : Flt
  freshness_weight : ℚ
  confluence : ℕ
  score : ℚ
  reasons : List String
  touched_tfs : List String
deriving DecidableEq

/-- `QualityGates` (the evaluator object).  `halfPow` models the float power
`0.5 ** x` used by `compute_freshness_weight`; it is irrational for most
exponents, so it is carried as an abstract function — no property proved here
depends on its values. -/
structure QualityGates where
  config : QualityGatesConfig
  exchange : Option String
  halfPow : ℚ → ℚ

/-- `QualityGates.compute_rr`. -/
def compute_rr (entry stop tp1 : ℚ) (direction : TradeDirection) : ℚ :=
  let rw : ℚ × ℚ :=
    match direction with
    | .LONG => (entry - stop, tp1 - entry)
    | .SHORT => (stop - entry, entry - tp1)
    | .NEUTRAL => (0, 0)
  if rw.1 ≤ 0 ∨ rw.2 ≤ 0 then 0 else rw.2 / rw.1

/-- `QualityGates.compute_entry_distance_pct` (`inf` when the price is not
positive). -/
def compute_entry_distance_pct (price entry : ℚ) : Flt :=
  if price ≤ 0 then .inf else .fin (|entry - price| / price * 100)

/-- `QualityGates.compute_spread_bps` (`inf` for an invalid book). -/
def compute_spread_bps (bid ask : ℚ) : Flt :=
  if bid ≤ 0 ∨ ask ≤ 0 ∨ ask ≤ bid then .inf
  else .fin ((ask - bid) / ((ask + bid) / 2) * 10000)

/-- `QualityGates.compute_freshness_weight`:
`0.5 ** (max(minutes_old, 0) / half_life)`. -/
def compute_freshness_weight (g : QualityGates) (minutes_old : ℚ) : ℚ :=
  let m := if minutes_old < 0 then 0 else minutes_old
  g.halfPow (m / g.config.freshness_half_life_min)

/-- `QualityGates._clip`. -/
def clip (value lower upper : ℚ) : ℚ :=
  max lower (min upper value)

/-- `QualityGates._f_bool`. -/
def f_bool (b : Bool) : ℚ :=
  if b then 1 else 0

/-- `QualityGates._f_rr`. -/
def f_rr (rr : ℚ) : ℚ :=
  if rr ≤ 0 then 0 else min (rr / 3) 1

/-- `QualityGates._f_tf_align`. -/
def f_tf_align (htf_trend_agrees : Bool) : ℚ :=
  if htf_trend_agrees then 1 else 0

/-- `QualityGates._f_atr_band`: triangular score around the regime-specific
sweet spot. -/
def f_atr_band (atr_pct : ℚ) (regime : String) : ℚ :=
  if atr_pct ≤ 0 then 0
  else
    let regime2 := pyUpperStr regime
    let sw : ℚ × ℚ :=
      if regime2 = "TRENDING" then (1, 3)
      else if regime2 = "RANGING" then (1/2, 3/2)
      else if regime2 = "VOLATILE" then (2, 5)
      else (1, 3)
    if atr_pct < sw.1 ∨ atr_pct > sw.2 then
      let span := sw.2 - sw.1
      if atr_pct < sw.1 then clip (1 - (sw.1 - atr_pct) / span) 0 1
      else clip (1 - (atr_pct - sw.2) / span) 0 1
    else
      let mid := (sw.1 + sw.2) / 2
      if atr_pct = mid then 1
      else clip (1 - |atr_pct - mid| / ((sw.2 - sw.1) / 2)) 0 1

/-- `QualityGates._f_regime`. -/
def f_regime (regime : String) : ℚ :=
  let r := pyUpperStr regime
  if r = "TRENDING" then 1
  else if r = "RANGING" then 3/5
  else if r = "VOLATILE" then 4/5
  else 3/5

/-- `QualityGates._calc_score`: the weighted soft score clipped to
`[0, 100]`. -/
def calc_score (g : QualityGates) (c : SetupCandidate) (rr w_fresh : ℚ) : ℚ :=
  let w := g.config.confluence_weights
  let flags := c.structure_flags
  clip
    (w.tf_align * f_tf_align (flagsGet flags "htf_trend_agrees")
      + w.ob_quality * (c.ob_quality.getD 0)
      + w.fvg_presence * f_bool (flagsGet flags "has_fvg")
      + w.bos_choch * f_bool (flagsGet flags "bos_in_favor")
      + w.freshness * w_fresh
      + w.rr_strength * f_rr rr
      + w.atr_sweetspot * f_atr_band c.atr_pct c.regime
      + w.regime_bias * f_regime c.regime)
    0 100

/-- `QualityGates._build_reasons`; the interpolated numbers in the reason
texts are elided (they never feed back into control flow). -/
def build_reasons (c : SetupCandidate) : List String :=
  let flags := c.structure_flags
  ((if flagsGet flags "htf_trend_agrees" then ["HTF trend agrees"] else [])
    ++ (if flagsGet flags "bos_in_favor" then ["BOS in favor"] else [])
    ++ (if flagsGet flags "has_ob" && c.ob_quality.isSome then ["OB quality"]
        else if flagsGet flags "has_ob" then ["Order block in play"] else [])
    ++ (if flagsGet flags "has_fvg" then ["FVG aligned"] else [])
    ++ ["RR and entry distance", "freshness and age", "spread and volume"]).take 5

/-- The body of the `evaluate` loop for one candidate: `none` models a
`continue`. -/
def gateCheck (g : QualityGates) (candidate : SetupCandidate) : Option GateDecision :=
  let isPhemex : Bool :=
    match g.exchange with
    | some e => if e ≠ "" ∧ pyLowerStr e = "phemex" then true else false
    | none => false
  if isPhemex ∧ ¬candidate.phemex_listed then none
  else
    let rr := compute_rr candidate.entry_near candidate.entry_stop candidate.entry_tp1
      candidate.direction
    if rr < g.config.min_rr then none
    else
      let entry_distance_pct :=
        compute_entry_distance_pct candidate.price_current candidate.entry_near
      if Flt.lt entry_distance_pct (.fin g.config.entry_distance_pct.1)
          || Flt.lt (.fin g.config.entry_distance_pct.2) entry_distance_pct then none
      else if candidate.minutes_old > g.config.max_setup_age_min then none
      else if candidate.volume_usd_24h < g.config.min_volume_usd then none
      else
        let spread_bps := compute_spread_bps candidate.orderbook_bid candidate.orderbook_ask
        if Flt.lt (.fin g.config.max_spread_bps) spread_bps then none
        else
          let confluence := confluence_count candidate
          if (confluence : ℤ) < g.config.min_confluence then none
          else
            let w_fresh := compute_freshness_weight g candidate.minutes_old
            let score := calc_score g candidate rr w_fresh
            if score < g.config.min_score then none
            else
              some ⟨candidate, rr, entry_distance_pct, spread_bps, w_fresh, confluence,
                score, build_reasons candidate, candidate.touched_tfs⟩

/-- The `approved` list before sorting. -/
def approvedList (g : QualityGates) (candidates : List SetupCandidate) : List GateDecision :=
  candidates.filterMap (gateCheck g)

/-- Stable insertion step for the descending-score sort: a later element goes
after every earlier element whose score is at least as large. -/
def insertDesc (d : GateDecision) : List GateDecision → List GateDecision
  | [] => [d]
  | e :: es => if e.score < d.score then d :: e :: es else e :: insertDesc d es

/-- `approved.sort(key=lambda d: d.score, reverse=True)`: a stable sort by
score descending.  A stable sort's output is uniquely determined by the key
and the input order, so this insertion sort computes exactly CPython's
result. -/
def sortDesc (l : List GateDecision) : List GateDecision :=
  l.foldl (fun acc d => insertDesc d acc) []

/-- Python's `l[:n]` for an `int` `n`, including the negative case. -/
def pySlice {α : Type} (n : ℤ) (l : List α) : List α :=
  if 0 ≤ n then l.take n.toNat else l.take (l.length - (-n).toNat)

/-- `QualityGates.evaluate`. -/
def evaluate (g : QualityGates) (candidates : List SetupCandidate) : List GateDecision :=
  pySlice g.config.max_setups (sortDesc (approvedList g candidates))

end Gates

/-- The default quality-gate weights, used by the gate witnesses. -/
def gatesDefaultWeights : Gates.ConfluenceWeights := ⟨25, 15, 10, 15, 10, 10, 10, 5⟩

/-- The default `QualityGatesConfig`, used by the gate witnesses. -/
def gatesDefaultConfig : Gates.QualityGatesConfig :=
  ⟨2, (1/2, 5), 30, 90, 100000, 20, 3, 60, 5, gatesDefaultWeights⟩

/-- A concrete `QualityGates` evaluator (no exchange restriction; the witness
takes the constant-one power function, which agrees with `0.5 ** 0` at the
only exponent the witness exercises). -/
def gatesG1 : Gates.QualityGates := ⟨gatesDefaultConfig, none, fun _ => 1⟩

/-- A concrete candidate that passes every hard gate. -/
def gatesC1 : Gates.SetupCandidate :=
  ⟨"BTC/USDT", "15m", .LONG, 100, 1000, 1001, 200000, 2, 0, 102, 100, 106,
   [("has_ob", true), ("has_fvg", true), ("bos_in_favor", true), ("htf_trend_agrees", true)],
   true, "TRENDING", [], some 1, []⟩

/-- The decision `evaluate` produces for `gatesC1` under `gatesG1`. -/
def gatesD1 : Gates.GateDecision :=
  ⟨gatesC1, 2, .fin 2, .fin (20000/2001), 1, 4, 290/3,
   ["HTF trend agrees", "BOS in favor", "OB quality", "FVG aligned", "RR and entry distance"],
   []⟩

/-! ### `planner/leverage.py` and `planner/sizing.py` -/

namespace Planner

/-- `estimate_liq_price`: approximate isolated liquidation price. -/
def estimate_liq_price (entry : ℚ) (side : String) (leverage maint_margin_rate : ℚ) :
    Except String ℚ :=
  if leverage ≤ 0 then .error "leverage must be positive"
  else if entry ≤ 0 then .error "entry price must be positive"
  else
    let mmr := max maint_margin_rate 0
    let lev := max leverage (1 / 1000000000)
    if side = "LONG" then .ok (entry * (1 - 1 / lev + mmr))
    else if side = "SHORT" then .ok (entry * (1 + 1 / lev - mmr))
    else .error "Unsupported side"

/-- `_buffers` (the `side` argument is accepted and unused, as in the
source). -/
def buffersOf (sl : ℚ) (side : String) (atr liq_buffer_pct liq_buffer_atr_mult : ℚ) :
    ℚ × ℚ :=
  let _ := side
  (|sl| * (liq_buffer_pct / 100), max atr 0 * liq_buffer_atr_mult)

/-- `liq_is_safe`: true when the liquidation price is safely beyond the stop
by the percent and ATR buffers.  Interpolated gap numbers in the failure
reason are elided. -/
def liq_is_safe (sl liq : ℚ) (side : String) (atr liq_buffer_pct liq_buffer_atr_mult : ℚ) :
    Except String (Bool × String) :=
  let bufs := buffersOf sl side atr liq_buffer_pct liq_buffer_atr_mult
  let min_gap := max bufs.1 bufs.2
  if side = "LONG" then
    if liq ≥ sl then .ok (false, "liq above stop")
    else if sl - liq ≥ min_gap then .ok (true, "liq safely below stop")
    else .ok (false, "need gap, have gap")
  else if side = "SHORT" then
    if liq ≤ sl then .ok (false, "liq below stop")
    else if liq - sl ≥ min_gap then .ok (true, "liq safely above stop")
    else .ok (false, "need gap, have gap")
  else .error "Unsupported side"

/-- `recommend_size_adjustment`: shrink factor in `(0, 1]`, or `0` when
impossible. -/
def recommend_size_adjustment (entry sl : ℚ) (side : String)
    (leverage maint_margin_rate atr liq_buffer_pct liq_buffer_atr_mult : ℚ) : ℚ × String :=
  if leverage ≤ 0 then (0, "invalid leverage")
  else
    let bufs := buffersOf sl side atr liq_buffer_pct liq_buffer_atr_mult
    let min_gap := max bufs.1 bufs.2
    let rhs :=
      if side = "LONG" then
        let required0 := sl - min_gap
        let required := if required0 ≤ 0 then sl * (1 - 1 / 1000000) else required0
        1 + maint_margin_rate - required / entry
      else
        let required := sl + min_gap
        required / entry + maint_margin_rate - 1
    if rhs ≤ 0 then (1, "any leverage safe")
    else
      let max_safe_leverage := 1 / rhs
      if max_safe_leverage ≤ 0 then (0, "no leverage satisfies buffers")
      else if max_safe_leverage ≥ leverage then (1, "current leverage safe")
      else
        let factor := max_safe_leverage / leverage
        if factor < 1 / 1000 then (0, "reduction insufficient")
        else (factor, "reduce leverage")

/-- `_round_qty` from `sizing.py`: snap to the lot grid with Python's
`round` (nearest, half to even), never below one lot. -/
def round_qty (qty lot_size : ℚ) : ℚ :=
  if lot_size ≤ 0 then qty
  else ((max (pyRound (qty / lot_size)) 1 : ℤ) : ℚ) * lot_size

/-- The sizing-guardrail attributes `position_size_leverage` reads through
`_get_attr`; the caller-facing getattr defaults (0, 0, false, false) are the
field values when the attribute is absent. -/
structure SizingCfg where
  LIQ_BUFFER_PCT : ℚ
  LIQ_BUFFER_ATR_MULT : ℚ
  REDUCE_SIZE_IF_LIQ_TOO_CLOSE : Bool
  SKIP_IF_AFTER_REDUCE_STILL_UNSAFE : Bool
deriving DecidableEq

/-- The result dict of `position_size_leverage`. -/
structure SizeResult where
  qty : ℚ
  liq : ℚ
  reduced : Bool
  reason : String
deriving DecidableEq

/-- `position_size_leverage` from `planner/sizing.py`. -/
def position_size_leverage (entry stop : ℚ) (side : String)
    (leverage price risk_usd lot_size min_notional maint_margin_rate atr : ℚ)
    (cfg : SizingCfg) : Except String SizeResult :=
  if entry ≤ 0 ∨ price ≤ 0 then .error "entry and price must be positive"
  else if risk_usd ≤ 0 then .ok ⟨0, 0, false, "no risk budget"⟩
  else
    let distance := |entry - stop|
    if distance = 0 then .ok ⟨0, 0, false, "zero stop distance"⟩
    else
      let raw_qty := risk_usd / distance
      let qty0 := max raw_qty 0
      let lot_size2 := max lot_size 0
      let qty1 := if lot_size2 ≠ 0 then max qty0 lot_size2 else qty0
      let qty2 := if lot_size2 ≠ 0 then round_qty qty1 lot_size2 else qty1
      let notional := qty2 * price
      let qty3 :=
        if notional < min_notional then
          (if lot_size2 ≠ 0 then round_qty (min_notional / price) lot_size2
           else min_notional / price)
        else qty2
      match estimate_liq_price entry side leverage maint_margin_rate with
      | .error e => .error e
      | .ok liq =>
        match liq_is_safe stop liq side atr cfg.LIQ_BUFFER_PCT cfg.LIQ_BUFFER_ATR_MULT with
        | .error e => .error e
        | .ok sr =>
          if ¬sr.1 ∧ cfg.REDUCE_SIZE_IF_LIQ_TOO_CLOSE then
            let fr := recommend_size_adjustment entry stop side leverage maint_margin_rate
              atr cfg.LIQ_BUFFER_PCT cfg.LIQ_BUFFER_ATR_MULT
            if fr.1 ≤ 0 then
              if cfg.SKIP_IF_AFTER_REDUCE_STILL_UNSAFE then .ok ⟨0, liq, false, fr.2⟩
              else .ok ⟨qty3, liq, false, sr.2⟩
            else
              let reduced := fr.1 < 1
              let qty4 := qty3 * fr.1
              let effective_leverage := max (leverage * fr.1) 1
              let qty5 := if lot_size2 ≠ 0 then round_qty qty4 lot_size2 else qty4
              let notional2 := qty5 * price
              if notional2 < min_notional ∧ cfg.SKIP_IF_AFTER_REDUCE_STILL_UNSAFE then
                .ok ⟨0, liq, reduced, "qty below min notional after reduce"⟩
              else
                match estimate_liq_price entry side effective_leverage maint_margin_rate with
                | .error e => .error e
                | .ok liq2 =>
                  match liq_is_safe stop liq2 side atr cfg.LIQ_BUFFER_PCT
                      cfg.LIQ_BUFFER_ATR_MULT with
                  | .error e => .error e
                  | .ok sr2 =>
                    if ¬sr2.1 ∧ cfg.SKIP_IF_AFTER_REDUCE_STILL_UNSAFE then
                      .ok ⟨0, liq2, reduced, sr2.2⟩
                    else .ok ⟨qty5, liq2, reduced, sr2.2⟩
          else .ok ⟨qty3, liq, false, sr.2⟩

/-- `qty` lies on the non-negative lot grid. -/
def gridMultiple (qty lot_size : ℚ) : Prop :=
  ∃ n : ℕ, qty = (n : ℚ) * lot_size

end Planner

/-! ### `scoring/confluence.py` with the `models.py` record types -/

namespace Scoring

/-- `TradeDirection.value`. -/
def directionValue : Gates.TradeDirection → String
  | .LONG => "LONG"
  | .SHORT => "SHORT"
  | .NEUTRAL => "NEUTRAL"

/-- `IndicatorSignal` (the `metadata` dict is unused by the scorer and
elided). -/
structure IndicatorSignal where
  name : String
  value : ℚ
  signal : Gates.TradeDirection
  strength : ℚ
  timeframe : String
deriving DecidableEq

/-- `LiquidationData`. -/
structure LiquidationData where
  symbol : String
  price_level : ℚ
  liquidation_amount : ℚ
  direction : Gates.TradeDirection
  significance : ℚ
deriving DecidableEq

/-- One element of `indicator_summaries` (fixed keys of the dict built in
`score_setup`). -/
structure IndicatorSummary where
  name : String
  signal : String
  strength : ℚ
  timeframe : String
  value : ℚ
deriving DecidableEq

/-- One element of the `liquidation_zones` summary list. -/
structure LiquidationSummary where
  price_level : ℚ
  liquidation_amount : ℚ
  direction : String
  significance : ℚ
deriving DecidableEq

/-- The `metadata` dict of an emitted setup (fixed keys). -/
structure SetupMetadata where
  indicator_score : ℚ
  confluence_score : ℚ
  liquidation_score : ℚ
  trend_score : ℚ
  aligned_timeframes : ℕ
  signal_count : ℕ
deriving DecidableEq

/-- `TradeSetup` from `models.py`. -/
structure TradeSetup where
  symbol : String
  exchange : String
  direction : String
  score : ℚ
  confidence : ℚ
  entry_plan : List ℚ
  stop_loss : ℚ
  take_profits : List ℚ
  rr : ℚ
  reasons : List String
  time_ms : ℤ
  timeframe_confluence : List (String × String)
  indicator_summaries : List IndicatorSummary
  liquidation_zones : List LiquidationSummary
  metadata : SetupMetadata
deriving DecidableEq

/-- The pydantic construction of a `TradeSetup`: the field constraints
(`pattern`, `ge`/`le`/`gt`, `min_length`) followed by the
`validate_levels` model validator; a violation raises. -/
def mkTradeSetup (symbol exchange direction : String) (score confidence : ℚ)
    (entry_plan : List ℚ) (stop_loss : ℚ) (take_profits : List ℚ) (rr : ℚ)
    (reasons : List String) (time_ms : ℤ)
    (timeframe_confluence : List (String × String))
    (indicator_summaries : List IndicatorSummary)
    (liquidation_zones : List LiquidationSummary)
    (metadata : SetupMetadata) : Except String TradeSetup :=
  if ¬(direction = "LONG" ∨ direction = "SHORT") then .error "direction pattern"
  else if score < 0 ∨ 100 < score then .error "score out of range"
  else if confidence < 0 ∨ 1 < confidence then .error "confidence out of range"
  else if entry_plan = [] then .error "entry_plan must be non-empty"
  else if stop_loss ≤ 0 then .error "stop_loss must be positive"
  else if take_profits = [] then .error "take_profits must be non-empty"
  else if rr ≤ 0 then .error "rr must be positive"
  else if reasons = [] then .error "reasons must not be empty"
  else if time_ms < 0 then .error "time_ms must be non-negative"
  else
    match entry_plan with
    | [] => .error "entry_plan must be non-empty"
    | entry_price :: _ =>
      if direction = "LONG" then
        if entry_price ≤ stop_loss then .error "Stop loss must be below entry for LONG setups"
        else if take_profits.any (fun tp => decide (tp ≤ entry_price)) then
          .error "Take profit targets must be above entry for LONG setups"
        else
          .ok ⟨symbol, exchange, direction, score, confidence, entry_plan, stop_loss,
            take_profits, rr, reasons, time_ms, timeframe_confluence, indicator_summaries,
            liquidation_zones, metadata⟩
      else
        if stop_loss ≤ entry_price then .error "Stop loss must be above entry for SHORT setups"
        else if take_profits.any (fun tp => decide (entry_price ≤ tp)) then
          .error "Take profit targets must be below entry for SHORT setups"
        else
          .ok ⟨symbol, exchange, direction, score, confidence, entry_plan, stop_loss,
            take_profits, rr, reasons, time_ms, timeframe_confluence, indicator_summaries,
            liquidation_zones, metadata⟩

/-- Summed strength of the LONG signals. -/
def longStrength (signals : List IndicatorSignal) : ℚ :=
  ((signals.filter (fun s => decide (s.signal = .LONG))).map (fun s => s.strength)).sum

/-- Summed strength of the SHORT signals. -/
def shortStrength (signals : List IndicatorSignal) : ℚ :=
  ((signals.filter (fun s => decide (s.signal = .SHORT))).map (fun s => s.strength)).sum

/-- `ConfluenceScorer.calculate_indicator_score`. -/
def calculate_indicator_score (signals : List IndicatorSignal) : ℚ :=
  if signals = [] then 0
  else
    let long_signals := signals.filter (fun s => decide (s.signal = .LONG))
    let short_signals := signals.filter (fun s => decide (s.signal = .SHORT))
    let long_strength := (long_signals.map (fun s => s.strength)).sum
    let short_strength := (short_signals.map (fun s => s.strength)).sum
    let total_strength := long_strength + short_strength
    if total_strength = 0 then 0
    else
      let alignment := max long_strength short_strength / total_strength
      let count_bonus :=
        min 1 ((max long_signals.length short_signals.length : ℚ) / (signals.length : ℚ))
      (alignment * (7/10) + count_bonus * (3/10)) * 100

/-- `ConfluenceScorer.calculate_timeframe_confluence` over the per-timeframe
dominant-direction mapping. -/
def calculate_timeframe_confluence (m : List (String × Gates.TradeDirection)) : ℚ :=
  if m = [] then 0
  else
    let directions := m.map (fun p => p.2)
    let long_count := directions.count .LONG
    let short_count := directions.count .SHORT
    ((max long_count short_count : ℚ) / (directions.length : ℚ)) * 100

/-- `ConfluenceScorer.calculate_liquidation_score`. -/
def calculate_liquidation_score (zones : List LiquidationData)
    (direction : Gates.TradeDirection) : ℚ :=
  if zones = [] then 50
  else
    let supporting := zones.filter (fun z => decide (z.direction = direction))
    if supporting = [] then 30
    else
      let avg := ((supporting.map (fun z => z.significance)).sum) / (supporting.length : ℚ)
      let zone_bonus := min 1 ((supporting.length : ℚ) / 3)
      (avg * (7/10) + zone_bonus * (3/10)) * 100

/-- `ConfluenceScorer.determine_dominant_direction`: the side with the larger
summed strength; ties give `NEUTRAL`. -/
def determine_dominant_direction (signals : List IndicatorSignal) : Gates.TradeDirection :=
  if shortStrength signals < longStrength signals then .LONG
  else if longStrength signals < shortStrength signals then .SHORT
  else .NEUTRAL

/-- `ConfluenceScorer.calculate_confidence`. -/
def calculate_confidence (score : ℚ) (num_signals timeframe_confluence : ℕ) : ℚ :=
  min 1 (score / 100 + min (1/5) ((num_signals : ℚ) / 20)
    + min (1/5) ((timeframe_confluence : ℚ) / 10))

/-- `ConfluenceScorer.generate_reasons`; interpolated numbers beyond the
zone count are elided from the texts. -/
def generate_reasons (score : ℚ) (direction : Gates.TradeDirection)
    (indicator_signals : List IndicatorSignal)
    (timeframe_confluence : List (String × Gates.TradeDirection))
    (liquidation_zones : List LiquidationData) : List String :=
  let strong := (indicator_signals.filter (fun s => decide (3/5 < s.strength))).take 3
  let r1 := strong.map
    (fun s => s.name ++ " favours " ++ directionValue s.signal ++ " on " ++ s.timeframe)
  let aligned :=
    (timeframe_confluence.filter (fun p => decide (p.2 = direction))).map (fun p => p.1)
  let r2 :=
    if 2 ≤ aligned.length then
      ["Multi-timeframe alignment: " ++ String.intercalate ", " (aligned.take 4)]
    else []
  let significant := liquidation_zones.filter (fun z => decide (3/5 < z.significance))
  let r3 :=
    if significant.length ≠ 0 then
      [toString significant.length ++ " supportive liquidation zone(s)"]
    else []
  let r4 :=
    if 70 ≤ score then ["High composite score"]
    else if 50 ≤ score then ["Moderate composite score"]
    else []
  r1 ++ r2 ++ r3 ++ r4

/-- The baseline stop / take-profit / risk / reward geometry of
`score_setup` (the `else` branch covers `SHORT`; `NEUTRAL` has already
returned). -/
structure Geometry where
  stop_loss : ℚ
  take_profits : List ℚ
  risk : ℚ
  reward : ℚ
deriving DecidableEq

/-- The geometry block of `score_setup`. -/
def baselineGeometry (direction : Gates.TradeDirection) (price : ℚ) : Geometry :=
  match direction with
  | .LONG =>
    ⟨price * (98/100), [price * (102/100), price * (104/100)],
     price - price * (98/100), price * (102/100) - price⟩
  | _ =>
    ⟨price * (102/100), [price * (98/100), price * (96/100)],
     price * (102/100) - price, price - price * (98/100)⟩

/-- `rr = reward / risk if risk > 0 else 0.0` over the baseline geometry. -/
def baselineRR (direction : Gates.TradeDirection) (price : ℚ) : ℚ :=
  let g := baselineGeometry direction price
  if 0 < g.risk then g.reward / g.risk else 0

/-- The per-timeframe loop of `score_setup`: collect the stamped signals (in
timeframe order) and the per-timeframe dominant directions of the qualifying
timeframes.  The indicator calculator is the injected collaborator
`calcAll`; the market-data rows are opaque to the scorer. -/
def collectSignals {α : Type} (calcAll : List α → List IndicatorSignal) :
    List (String × List α) → List IndicatorSignal × List (String × Gates.TradeDirection)
  | [] => ([], [])
  | (tf, md) :: rest =>
    let r := collectSignals calcAll rest
    if md.length < 50 then r
    else
      let signals := (calcAll md).map (fun s => { s with timeframe := tf })
      (signals ++ r.1,
       if signals ≠ [] then (tf, determine_dominant_direction signals) :: r.2 else r.2)

/-- `ConfluenceScorer.score_setup`.  The liquidation heatmap collaborator is
the injected `getLiq`; `now_ms` stands for the wall clock used for
`time_ms`; the dict of timeframes is an insertion-ordered association list
with distinct keys. -/
def score_setup {α : Type} (calcAll : List α → List IndicatorSignal)
    (getLiq : String → ℚ → List LiquidationData) (symbol exchange : String)
    (timeframe_data : List (String × List α)) (current_price : ℚ) (now_ms : ℤ) :
    Except String (Option TradeSetup) :=
  let cs := collectSignals calcAll timeframe_data
  let all_signals := cs.1
  let timeframe_directions := cs.2
  if all_signals = [] then .ok none
  else
    let overall_direction := determine_dominant_direction all_signals
    if overall_direction = .NEUTRAL then .ok none
    else
      let liquidation_zones := getLiq symbol current_price
      let indicator_score := calculate_indicator_score all_signals
      let confluence_score := calculate_timeframe_confluence timeframe_directions
      let liquidation_score := calculate_liquidation_score liquidation_zones overall_direction
      let avg_strength := ((all_signals.map (fun s => s.strength)).sum)
        / (all_signals.length : ℚ)
      let trend_score := avg_strength * 100
      let total_score := indicator_score * (35/100) + confluence_score * (30/100)
        + liquidation_score * (20/100) + trend_score * (15/100)
      let num_aligned := (timeframe_directions.filter
        (fun p => decide (p.2 = overall_direction))).length
      let confidence := calculate_confidence total_score all_signals.length num_aligned
      let geom := baselineGeometry overall_direction current_price
      let rr := baselineRR overall_direction current_price
      let reasons0 := generate_reasons total_score overall_direction all_signals
        timeframe_directions liquidation_zones
      let reasons := if reasons0 = [] then ["setup detected"] else reasons0
      let timeframe_summary :=
        timeframe_directions.map (fun p => (p.1, directionValue p.2))
      let indicator_summary := all_signals.map
        (fun s => IndicatorSummary.mk s.name (directionValue s.signal) s.strength
          s.timeframe s.value)
      let liquidation_summary := liquidation_zones.map
        (fun z => LiquidationSummary.mk z.price_level z.liquidation_amount
          (directionValue z.direction) z.significance)
      match mkTradeSetup symbol exchange (directionValue overall_direction) total_score
        confidence [current_price] geom.stop_loss geom.take_profits
        (if 0 < rr then rr else 1/100) reasons now_ms timeframe_summary indicator_summary
        liquidation_summary
        ⟨indicator_score, confluence_score, liquidation_score, trend_score, num_aligned,
         all_signals.length⟩ with
      | .ok s => .ok (some s)
      | .error e => .error e

end Scoring

/-! ### `outputs/autotraders/executor.py` with `state/orders.py` -/

namespace Executor

/-- The plan dict consumed by `execute_plan`; absent keys are `none`. -/
structure Plan where
  id : Option String
  plan_id : Option String
  direction : Option String
  side : Option String
  entry_plan : Option (List ℚ)
  entry_price : Option ℚ
  quantity : Option ℚ
  qty : Option ℚ
  size : Option ℚ
  notional_usd : Option ℚ
  notional : Option ℚ
  base_qty : Option ℚ
  symbol : Option String
  reduce_only : Option Bool
  take_profits : Option (List ℚ)
  stop_loss : Option ℚ
  stop_entry_price : Option ℚ
deriving DecidableEq

/-- Python truthiness on an optional string: the empty string is falsy. -/
def truthyStr : Option String → Option String
  | some s => if s = "" then none else some s
  | none => none

/-- Python truthiness on an optional float: `0.0` is falsy. -/
def truthyQ : Option ℚ → Option ℚ
  | some q => if q = 0 then none else some q
  | none => none

/-- `_plan_id`: `plan.get("id") or plan.get("plan_id") or uuid.uuid4()`, with
the fresh uuid supplied as an argument. -/
def planIdOf (plan : Plan) (uuid : String) : String :=
  (((truthyStr plan.id).orElse (fun _ => truthyStr plan.plan_id)).getD uuid)

/-- `_extract_side`. -/
def extractSide (plan : Plan) : String :=
  let direction :=
    pyUpperStr (((truthyStr plan.direction).orElse (fun _ => truthyStr plan.side)).getD "LONG")
  if direction = "LONG" ∨ direction = "BUY" then "BUY" else "SELL"

/-- `_extract_entry`. -/
def extractEntry (plan : Plan) : ℚ :=
  match plan.entry_plan with
  | some (x :: _) => x
  | _ => (truthyQ plan.entry_price).getD 0

/-- `_extract_qty`. -/
def extractQty (plan : Plan) (entry_price : ℚ) : ℚ :=
  match truthyQ plan.quantity with
  | some q => q
  | none =>
    match truthyQ plan.qty with
    | some q => q
    | none =>
      match truthyQ plan.size with
      | some q => q
      | none =>
        let notional := ((truthyQ plan.notional_usd).orElse
          (fun _ => truthyQ plan.notional)).getD 0
        if notional ≠ 0 ∧ entry_price ≠ 0 then notional / entry_price
        else plan.base_qty.getD 0

/-- `_fallback_stop` with the default `slippage_bps = 5`. -/
def fallbackStop (entry_price : ℚ) (side : String) : ℚ :=
  let multiplier := 1 + (5 : ℚ) / 10000
  if side = "BUY" then entry_price * multiplier else entry_price / multiplier

/-- `_compute_pnl`. -/
def computePnl (plan : Plan) (qty entry_price : ℚ) : ℚ :=
  let exit_price :=
    match plan.take_profits with
    | some (x :: xs) => (x :: xs).getLast (List.cons_ne_nil x xs)
    | _ => (truthyQ plan.stop_loss).getD entry_price
  if extractSide plan = "BUY" then (exit_price - entry_price) * qty
  else (entry_price - exit_price) * qty

/-- `_limit_reduce_only`. -/
def limitReduceOnly (plan : Plan) : Bool :=
  plan.reduce_only.getD false

/-- `order_builder.build_limit_post_only` as `execute_plan` calls it — with no
`constraints`, so `_round_to_step` and `_ensure_min_notional` are the
identity. -/
def build_limit_post_only (symbol side : String) (qty price : ℚ) (reduce_only : Bool) :
    Phemex.VenueOrder :=
  { symbol := some symbol, side := some (pyUpperStr side), type := some "LIMIT",
    price := some price, stopPx := none, quantity := some qty,
    timeInForce := some "PostOnly", postOnly := some true, reduceOnly := some reduce_only }

/-- `order_builder.build_stop_entry` as `execute_plan` calls it (no
constraints). -/
def build_stop_entry (symbol side : String) (qty stop_price : ℚ) : Phemex.VenueOrder :=
  { symbol := some symbol, side := some (pyUpperStr side), type := some "STOP",
    price := none, stopPx := some stop_price, quantity := some qty,
    timeInForce := none, postOnly := none, reduceOnly := some false }

/-- One recorded fill. -/
structure Fill where
  entry_price : ℚ
  qty : ℚ
  pnl : ℚ
  timestamp : ℚ
deriving DecidableEq

/-- One entry of the persisted order-state document (`state/orders.py`);
`status = none` models the key being absent (the bare `setdefault` default). -/
structure OrderEntry where
  plan : Option Plan
  status : Option String
  fills : List Fill
  exchange_ids : List (String × String)
deriving DecidableEq

/-- The persisted order-state document: a JSON map keyed by `plan_id`. -/
abbrev OrdersState := List (String × OrderEntry)

/-- `dict.update`: fold the new bindings over the base. -/
def dictUpdate {K V : Type} [DecidableEq K] (base upd : List (K × V)) : List (K × V) :=
  upd.foldl (fun acc p => dictSet acc p.1 p.2) base

/-- `orders.save_intent`. -/
def save_intent (state : OrdersState) (plan_id : String) (payload : Plan) : OrdersState :=
  dictSet state plan_id ⟨some payload, some "intent", [], []⟩

/-- `orders.update_status` (with `setdefault` semantics for a missing
entry). -/
def update_status (state : OrdersState) (plan_id status : String)
    (exchange_ids : List (String × String)) : OrdersState :=
  let entry := (dictGet state plan_id).getD ⟨none, none, [], []⟩
  dictSet state plan_id
    { entry with status := some status,
                 exchange_ids := dictUpdate entry.exchange_ids exchange_ids }

/-- `orders.append_fill`. -/
def append_fill (state : OrdersState) (plan_id : String) (fill : Fill) : OrdersState :=
  let entry := (dictGet state plan_id).getD ⟨none, none, [], []⟩
  dictSet state plan_id { entry with fills := entry.fills ++ [fill] }

/-- The autotrader config read through `getattr` with defaults. -/
structure AutotraderCfg where
  MAKER_TIMEOUT_SEC : Option ℚ
  IDEMPOTENCY_PREFIX : Option String
deriving DecidableEq

/-- The execution summary returned by `execute_plan`. -/
structure ExecResult where
  plan_id : String
  symbol : String
  status : String
  pnl : ℚ
  order_limit : Option Phemex.OrderPayload
  order_fallback : Option Phemex.OrderPayload
deriving DecidableEq

/-- `execute_plan`.  The venue client is the injected `placeFn` oracle (an
`error` models a raised exception); `uuid` and `now` stand for `uuid.uuid4()`
and `time.time()`.  Returns the summary, the final order-state document and
the ordered trace of status values persisted under this `plan_id`
(`save_intent` writes `intent`; each `update_status` writes its argument).
Reporter/metrics/health calls only log and are not modelled. -/
def execute_plan (plan : Plan) (cfg : AutotraderCfg)
    (placeFn : Phemex.VenueOrder → String → Except String Phemex.OrderPayload)
    (uuid : String) (now : ℚ) (state0 : OrdersState) :
    ExecResult × OrdersState × List String :=
  let plan_id := planIdOf plan uuid
  let s1 := save_intent state0 plan_id plan
  let side := extractSide plan
  let entry_price := extractEntry plan
  let qty := extractQty plan entry_price
  let symbol := plan.symbol.getD "UNKNOWN"
  let maker := build_limit_post_only symbol side qty entry_price (limitReduceOnly plan)
  let limit_key := (cfg.IDEMPOTENCY_PREFIX.getD "snp_") ++ plan_id ++ "_limit"
  match placeFn maker limit_key with
  | .error _ =>
    let s2 := update_status s1 plan_id "rejected" []
    (⟨plan_id, symbol, "rejected", 0, none, none⟩, s2, ["intent", "rejected"])
  | .ok response =>
    let s2 := update_status s1 plan_id "working" [("limit", response.orderID)]
    let fallback_stop_price := (truthyQ plan.stop_entry_price).getD
      (fallbackStop entry_price side)
    let stop_key := (cfg.IDEMPOTENCY_PREFIX.getD "snp_") ++ plan_id ++ "_fallback"
    let stop_order := build_stop_entry symbol side qty fallback_stop_price
    let fallback_result := placeFn stop_order stop_key
    let pnl := computePnl plan qty entry_price
    let s3 := append_fill s2 plan_id ⟨entry_price, qty, pnl, now⟩
    let ids :=
      match fallback_result with
      | .ok fr => [("limit", response.orderID), ("fallback", fr.orderID)]
      | .error _ => [("limit", response.orderID)]
    let s4 := update_status s3 plan_id "filled" ids
    (⟨plan_id, symbol, "filled", pnl, some response, fallback_result.toOption⟩, s4,
     ["intent", "working", "filled"])

/-- The status sequences the claim allows: every prefix of
`intent, working, X` for a terminal `X`. -/
def claimStatusTraces : List (List String) :=
  [[], ["intent"], ["intent", "working"],
   ["intent", "working", "filled"], ["intent", "working", "rejected"],
   ["intent", "working", "canceled"], ["intent", "working", "amended"]]

end Executor

/-! ### Concrete inputs used by witnesses and counterexamples -/

/-- A minimal concrete plan for the C3 counterexample (only the symbol is
set). -/
def c3failPlan : Executor.Plan :=
  ⟨none, none, none, none, none, none, none, none, none, none, none, none,
   some "BTC/USDT", none, none, none, none⟩

/-- Concrete order used by the C2 witness. -/
def c2order : Phemex.VenueOrder :=
  ⟨some "BTC/USDT", some "BUY", some "LIMIT", some 100, none, some 1,
   some "PostOnly", some true, some false⟩

/-- Payload returned by the first concrete `place` call of the C2 witness. -/
def c2payload1 : Phemex.OrderPayload :=
  match Phemex.place ⟨[], []⟩ c2order "snp_1_limit" "oid-a" 0 with
  | .ok (r, _) => r
  | .error _ => Phemex.serialise ⟨c2order, "", "", "", 0, none, 0⟩

/-- Venue state after the first concrete `place` call of the C2 witness. -/
def c2state1 : Phemex.PaperState :=
  match Phemex.place ⟨[], []⟩ c2order "snp_1_limit" "oid-a" 0 with
  | .ok (_, s) => s
  | .error _ => ⟨[], []⟩

/-- Payload returned by the duplicate `place` call of the C2 witness. -/
def c2payload2 : Phemex.OrderPayload :=
  match Phemex.place c2state1 c2order "snp_1_limit" "oid-b" 1 with
  | .ok (r, _) => r
  | .error _ => Phemex.serialise ⟨c2order, "", "", "", 0, none, 0⟩

/-- Venue state after the duplicate `place` call of the C2 witness. -/
def c2state2 : Phemex.PaperState :=
  match Phemex.place c2state1 c2order "snp_1_limit" "oid-b" 1 with
  | .ok (_, s) => s
  | .error _ => ⟨[], []⟩

/-- Liquidation-heatmap collaborator returning no zones (the C10 scenario). -/
def scoringZeroLiq : String → ℚ → List Scoring.LiquidationData := fun _ _ => []

/-- Indicator calculator used by the C10 witness: one strong LONG signal. -/
def c10calc : List ℕ → List Scoring.IndicatorSignal :=
  fun _ => [⟨"RSI", 25, .LONG, 1, ""⟩]

/-- Timeframe data for the C10 witness: one timeframe with 50 rows. -/
def c10data : List (String × List ℕ) := [("15m", List.replicate 50 0)]

/-- The setup `score_setup` emits on the C10 witness inputs. -/
def c10setup : Scoring.TradeSetup :=
  ⟨"BTC/USDT", "phemex", "LONG", 90, 1, [100], 98, [102, 104], 1,
   ["RSI favours LONG on 15m", "High composite score"], 0,
   [("15m", "LONG")], [⟨"RSI", "LONG", 1, "15m", 25⟩], [],
   ⟨100, 100, 50, 100, 1, 1⟩⟩

/-- Liquidation-heatmap collaborator returning no zones (the C5 scenario). -/
def c5liq : String → ℚ → List Scoring.LiquidationData := fun _ _ => []

/-- Indicator calculator of the C5 scenario: rows headed by `0` yield one
strong LONG signal; other rows yield an exactly tied LONG/SHORT pair. -/
def c5calc : List ℕ → List Scoring.IndicatorSignal := fun md =>
  if md.headD 0 = 0 then [⟨"RSI", 25, .LONG, 1, ""⟩]
  else [⟨"MACD", 1, .LONG, 1/2, ""⟩, ⟨"EMA", 1, .SHORT, 1/2, ""⟩]

/-- Timeframe data of the C5 scenario: a LONG-dominant `1h` and a tied `4h`. -/
def c5data : List (String × List ℕ) :=
  [("1h", List.replicate 50 0), ("4h", List.replicate 50 1)]

/-- The setup `score_setup` emits on the C5 scenario inputs: the tied `4h`
timeframe is retained as `"NEUTRAL"` and dilutes the confluence score to 50. -/
def c5setup : Scoring.TradeSetup :=
  ⟨"BTC/USDT", "phemex", "LONG", 483/8, 683/800, [100], 98, [102, 104], 1,
   ["RSI favours LONG on 1h", "Moderate composite score"], 0,
   [("1h", "LONG"), ("4h", "NEUTRAL")],
   [⟨"RSI", "LONG", 1, "1h", 25⟩, ⟨"MACD", "LONG", 1/2, "4h", 1⟩,
    ⟨"EMA", "SHORT", 1/2, "4h", 1⟩],
   [], ⟨145/2, 50, 50, 200/3, 1, 3⟩⟩


end SnipeTrade

/-! ## Lemmas and claim theorems -/

namespace SnipeTrade

theorem Flt.le_of_not_lt {a b : Flt} (h : Flt.lt a b = false) : Flt.le b a = true := by
  cases a <;> cases b <;> simp_all [Flt.lt, Flt.le]

theorem mem_dictSet {K V : Type} [DecidableEq K] {st : List (K × V)} {k k1 : K} {v v1 : V}
    (h : (k1, v1) ∈ dictSet st k v) : (k1 = k ∧ v1 = v) ∨ (k1, v1) ∈ st := by
  induction st with
  | nil => simp [dictSet] at h; exact Or.inl h
  | cons p t ih =>
    obtain ⟨k0, v0⟩ := p
    by_cases hk : k0 = k
    · simp [dictSet, hk] at h
      rcases h with h | h
      · exact Or.inl h
      · exact Or.inr (List.mem_cons_of_mem _ h)
    · simp only [dictSet, if_neg hk] at h
      rcases List.mem_cons.mp h with h | h
      · exact Or.inr (h ▸ List.mem_cons_self _ _)
      · rcases ih h with h2 | h2
        · exact Or.inl h2
        · exact Or.inr (List.mem_cons_of_mem _ h2)

theorem mem_of_mem_dictRemove {K V : Type} [DecidableEq K] {st : List (K × V)} {k : K}
    {p : K × V} (h : p ∈ dictRemove st k) : p ∈ st :=
  List.mem_of_mem_filter h

theorem dictGet_some_mem {K V : Type} [DecidableEq K] {st : List (K × V)} {k : K} {v : V}
    (h : dictGet st k = some v) : (k, v) ∈ st := by
  unfold dictGet at h
  cases hf : st.find? (fun p => p.1 = k) with
  | none => simp [hf] at h
  | some p =>
    simp [hf] at h
    have hmem := List.mem_of_find?_eq_some hf
    have hkey : p.1 = k := by
      have := List.find?_some hf
      simpa using this
    obtain ⟨p1, p2⟩ := p
    simp at hkey h
    exact hkey ▸ h ▸ hmem

theorem dictGet_dictRemove_self {K V : Type} [DecidableEq K] (st : List (K × V)) (k : K) :
    dictGet (dictRemove st k) k = none := by
  unfold dictGet
  cases hf : (dictRemove st k).find? (fun p => p.1 = k) with
  | none => rfl
  | some p =>
    exfalso
    have hmem := List.mem_of_find?_eq_some hf
    have hkey := List.find?_some hf
    have hfil := List.of_mem_filter hmem
    simp at hkey hfil
    exact hfil hkey

namespace Symbols

theorem toNat_charOfNat {n : ℕ} (h : n < 55296) : (Char.ofNat n).toNat = n := by
  simp only [Char.ofNat, Nat.isValidChar, Char.toNat]
  rw [dif_pos (Or.inl h)]
  simp [Char.ofNatAux, UInt32.toNat, BitVec.toNat_ofNatLt]

theorem toUpper_ne_slash {c : Char} (h : c ≠ '/') : Char.toUpper c ≠ '/' := by
  by_cases h2 : 97 ≤ c.toNat ∧ c.toNat ≤ 122
  · have hupper : Char.toUpper c = Char.ofNat (c.toNat - 32) := by
      simp [Char.toUpper, h2.1, h2.2]
    have hlt : c.toNat - 32 < 55296 := by omega
    rw [hupper]
    intro hc
    have h3 := congrArg Char.toNat hc
    rw [toNat_charOfNat hlt] at h3
    have h47 : ('/').toNat = 47 := by decide
    omega
  · have hid : Char.toUpper c = c := by
      simp [Char.toUpper]
      omega
    rw [hid]; exact h

theorem splitSlash_of_no_slash {s : Str} (h : '/' ∉ s) : splitSlash s = [s] := by
  induction s with
  | nil => rfl
  | cons c cs ih =>
    have hc : c ≠ '/' := fun hh => h (hh ▸ List.mem_cons_self _ _)
    have hcs : '/' ∉ cs := fun hh => h (List.mem_cons_of_mem _ hh)
    simp [splitSlash, ih hcs, hc]

theorem mem_pyStrip {s : Str} {c : Char} (h : c ∈ pyStrip s) : c ∈ s := by
  unfold pyStrip at h
  have h1 := List.mem_reverse.mp h
  have h2 := (List.dropWhile_sublist _).mem h1
  have h3 := List.mem_reverse.mp h2
  exact (List.dropWhile_sublist _).mem h3

theorem replaceDash_of_no_dash {s : Str} (h : '-' ∉ s) : replaceDash s = s := by
  unfold replaceDash
  induction s with
  | nil => rfl
  | cons c cs ih =>
    have hc : c ≠ '-' := fun hh => h (hh ▸ List.mem_cons_self _ _)
    have hcs : '-' ∉ cs := fun hh => h (List.mem_cons_of_mem _ hh)
    simp [hc, ih hcs]

theorem no_slash_pyUpper {s : Str} (h : '/' ∉ s) : '/' ∉ pyUpper s := by
  unfold pyUpper
  intro hmem
  obtain ⟨c, hc, hup⟩ := List.mem_map.mp hmem
  exact toUpper_ne_slash (fun hh => h (hh ▸ hc)) hup

theorem normalize_of_no_separator {s : Str} (hd : '-' ∉ s) (hs : '/' ∉ s)
    (hne : pyStrip s ≠ []) :
    normalize_symbol_for_exchange s = .ok (pyUpper (pyStrip s) ++ '/' :: "USDT".data) := by
  have hd' : '-' ∉ pyStrip s := fun hh => hd (mem_pyStrip hh)
  have hs' : '/' ∉ pyStrip s := fun hh => hs (mem_pyStrip hh)
  have hrep : replaceDash (pyStrip s) = pyStrip s := replaceDash_of_no_dash hd'
  have hsup : '/' ∉ pyUpper (pyStrip s) := no_slash_pyUpper hs'
  have hsplit : splitSlash (pyUpper (pyStrip s)) = [pyUpper (pyStrip s)] :=
    splitSlash_of_no_slash hsup
  have hne2 : (pyUpper (pyStrip s)).isEmpty = false := by
    unfold pyUpper
    cases h : pyStrip s with
    | nil => exact absurd h hne
    | cons a t => simp
  unfold normalize_symbol_for_exchange
  rw [if_neg hne]
  simp only [hrep, hsplit, List.filter, hne2]
  rfl

end Symbols

theorem dictGet_dictSet_self {K V : Type} [DecidableEq K] (st : List (K × V)) (k : K) (v : V) :
    dictGet (dictSet st k v) k = some v := by
  induction st with
  | nil => simp [dictSet, dictGet, List.find?]
  | cons p t ih =>
    obtain ⟨k0, v0⟩ := p
    by_cases hk : k0 = k
    · simp [dictSet, hk, dictGet, List.find?]
    · simp only [dictSet, if_neg hk]
      simpa [dictGet, List.find?, hk] using ih

theorem length_dictSet_of_fresh {K V : Type} [DecidableEq K] {st : List (K × V)} {k : K}
    (v : V) (h : dictGet st k = none) : (dictSet st k v).length = st.length + 1 := by
  induction st with
  | nil => rfl
  | cons p t ih =>
    obtain ⟨k0, v0⟩ := p
    simp only [dictGet, List.find?] at h
    by_cases hk : k0 = k
    · simp [hk] at h
    · rw [decide_eq_false hk] at h
      have ht : dictGet t k = none := by
        simpa [dictGet] using h
      simp [dictSet, hk, List.length_cons, ih ht]

namespace Cache

/-- The entry stored under `k` can be traced back to a `set` in the history:
its expiry is that set's instant plus the effective (positive) TTL. -/
def entryFromSet {K V : Type} (trace : List (ℤ × CacheOp K V)) (dttl : ℤ) (k : K)
    (e : CacheEntry V) : Prop :=
  ∃ (t : ℤ) (ttlArg : Option ℤ), (t, CacheOp.set k e.value ttlArg) ∈ trace ∧
    e.expires_at = t + ttlArg.getD dttl ∧ 0 < ttlArg.getD dttl

theorem applyOp_default_ttl {K V : Type} [DecidableEq K] (c : TTLCache K V) (t : ℤ)
    (op : CacheOp K V) : (applyOp c t op).default_ttl = c.default_ttl := by
  cases op with
  | set k v ttl =>
    simp only [applyOp, TTLCache.set]
    split
    · rename_i c2 heq
      split at heq
      · simp at heq
      · rw [← Except.ok.inj heq]
    · rfl
  | get k =>
    simp only [applyOp, TTLCache.get]
    cases dictGet c.store k with
    | none => rfl
    | some e =>
      simp only
      split <;> rfl
  | pop k => rfl
  | clear => rfl

theorem store_entry_origin {K V : Type} [DecidableEq K] :
    ∀ (trace : List (ℤ × CacheOp K V)) (c : TTLCache K V) (k : K) (e : CacheEntry V),
      (k, e) ∈ (runOps c trace).store →
      (k, e) ∈ c.store ∨ entryFromSet trace c.default_ttl k e := by
  intro trace
  induction trace with
  | nil => intro c k e h; exact Or.inl h
  | cons p rest ih =>
    obtain ⟨t, op⟩ := p
    intro c k e h
    have hrec := ih (applyOp c t op) k e h
    have hdttl := applyOp_default_ttl c t op
    rcases hrec with hmem | hset
    · cases op with
      | set k1 v1 ttl1 =>
        simp only [applyOp, TTLCache.set] at hmem
        by_cases httl : (ttl1.getD c.default_ttl) ≤ 0
        · simp only [httl, if_pos, reduceIte] at hmem
          exact Or.inl hmem
        · simp only [httl, reduceIte] at hmem
          rcases mem_dictSet hmem with ⟨hk, he⟩ | hmem2
          · refine Or.inr ⟨t, ttl1, ?_, ?_, ?_⟩
            · subst hk he; exact List.mem_cons_self _ _
            · subst he; rfl
            · omega
          · exact Or.inl hmem2
      | get k1 =>
        simp only [applyOp, TTLCache.get] at hmem
        cases hg : dictGet c.store k1 with
        | none => rw [hg] at hmem; exact Or.inl hmem
        | some e1 =>
          rw [hg] at hmem
          simp only at hmem
          split at hmem
          · exact Or.inl (mem_of_mem_dictRemove hmem)
          · exact Or.inl hmem
      | pop k1 =>
        exact Or.inl (mem_of_mem_dictRemove hmem)
      | clear =>
        simp [applyOp, TTLCache.clear] at hmem
    · obtain ⟨t2, ttl2, hmem2, hexp, hpos⟩ := hset
      rw [hdttl] at hexp hpos
      exact Or.inr ⟨t2, ttl2, List.mem_cons_of_mem _ hmem2, hexp, hpos⟩

theorem get_some_implies {K V : Type} [DecidableEq K] {c : TTLCache K V} {now : ℤ} {k : K}
    {v : V} (h : (c.get now k).1 = some v) :
    ∃ e : CacheEntry V, dictGet c.store k = some e ∧ e.value = v ∧ now < e.expires_at := by
  unfold TTLCache.get at h
  cases hg : dictGet c.store k with
  | none => rw [hg] at h; simp at h
  | some e =>
    rw [hg] at h
    simp only at h
    split at h
    · simp at h
    · rename_i hexp
      simp at h
      exact ⟨e, rfl, h, by omega⟩

end Cache

/-- C9 (corrected): an expired entry reads as absent through `get`, which also
removes it; `get` can only return a value that some `set` stored under the key
within the last effective TTL seconds; but `pop` performs no expiry check and
returns the stored value whenever the key is present. -/
theorem c9_cache_amended :
    (∀ (K V : Type) [DecidableEq K] (c : Cache.TTLCache K V) (now : ℤ) (k : K)
       (e : Cache.CacheEntry V),
       dictGet c.store k = some e → e.expires_at ≤ now →
       (c.get now k).1 = none ∧ dictGet (c.get now k).2.store k = none)
    ∧ (∀ (K V : Type) [DecidableEq K] (c : Cache.TTLCache K V) (k : K),
       (c.pop k).1 = (dictGet c.store k).map (fun e => e.value))
    ∧ (∀ (K V : Type) [DecidableEq K] (ttl0 : ℤ) (c0 : Cache.TTLCache K V)
       (trace : List (ℤ × Cache.CacheOp K V)) (now : ℤ) (k : K) (v : V),
       Cache.mkTTLCache K V ttl0 = .ok c0 →
       ((Cache.runOps c0 trace).get now k).1 = some v →
       ∃ (t : ℤ) (ttlArg : Option ℤ), (t, Cache.CacheOp.set k v ttlArg) ∈ trace ∧
         now < t + ttlArg.getD ttl0 ∧ 0 < ttlArg.getD ttl0) := by
  refine ⟨?_, ?_, ?_⟩
  · intro K V _ c now k e hg hexp
    unfold Cache.TTLCache.get
    rw [hg]
    simp [if_pos hexp, dictGet_dictRemove_self]
  · intro K V _ c k
    unfold Cache.TTLCache.pop
    cases dictGet c.store k <;> rfl
  · intro K V _ ttl0 c0 trace now k v hmk hget
    have hc0 : c0 = ⟨ttl0, []⟩ := by
      unfold Cache.mkTTLCache at hmk
      split at hmk
      · simp at hmk
      · exact (Except.ok.inj hmk).symm
    obtain ⟨e, hg, hval, hfresh⟩ := Cache.get_some_implies hget
    have hmem := dictGet_some_mem hg
    rcases Cache.store_entry_origin trace c0 k e hmem with hmem0 | horigin
    · rw [hc0] at hmem0; simp at hmem0
    · obtain ⟨t, ttlArg, hsetmem, hexp, hpos⟩ := horigin
      rw [hc0] at hexp hpos
      simp only at hexp hpos
      exact ⟨t, ttlArg, hval ▸ hsetmem, by omega, hpos⟩

/-- C9 witness: the amended theorem applied to a concrete cache holding an
entry that expired at instant 10, read at instant 20, and to a one-`set`
history whose value is then read back in time. -/
theorem c9_cache_witness :
    (((⟨60, [(0, ⟨5, 10⟩)]⟩ : Cache.TTLCache ℕ ℤ).get 20 0).1 = none
      ∧ dictGet ((⟨60, [(0, ⟨5, 10⟩)]⟩ : Cache.TTLCache ℕ ℤ).get 20 0).2.store 0 = none)
    ∧ ∃ (t : ℤ) (ttlArg : Option ℤ),
        (t, Cache.CacheOp.set 0 (5 : ℤ) ttlArg) ∈ [((0 : ℤ), Cache.CacheOp.set 0 (5 : ℤ) (some 10))]
        ∧ (3 : ℤ) < t + ttlArg.getD 60 ∧ 0 < ttlArg.getD 60 := by
  constructor
  · exact c9_cache_amended.1 ℕ ℤ ⟨60, [(0, ⟨5, 10⟩)]⟩ 20 0 ⟨5, 10⟩ rfl (by decide)
  · exact c9_cache_amended.2.2 ℕ ℤ 60 ⟨60, []⟩
      [((0 : ℤ), Cache.CacheOp.set 0 (5 : ℤ) (some 10))] 3 0 5 rfl rfl

/-- C9 counterexample: starting from a fresh cache with default TTL 60, a
value set at instant 0 with TTL 10 is expired at instant 20 — `get` at 20
returns `none` — yet `pop` still returns the stored value instead of the
`None` the claim requires for expired entries. -/
theorem c9_cache_counterexample :
    ((Cache.mkTTLCache ℕ ℤ 60).bind (fun c0 => c0.set 0 0 5 (some 10))).map
        (fun c1 => ((c1.get 20 0).1, (c1.pop 0).1))
      = .ok ((none : Option ℤ), some 5)
    ∧ (some (5 : ℤ)) ≠ none := by
  exact ⟨rfl, by decide⟩

namespace Planner

theorem round_qty_grid (q : ℚ) {lot : ℚ} (h : 0 < lot) :
    gridMultiple (round_qty q lot) lot := by
  refine ⟨(max (pyRound (q / lot)) 1).toNat, ?_⟩
  unfold round_qty
  rw [if_neg (not_le.mpr h)]
  congr 1
  have h1 : (0 : ℤ) ≤ max (pyRound (q / lot)) 1 :=
    le_trans (by omega) (le_max_right _ _)
  exact_mod_cast (congrArg (fun z : ℤ => (z : ℚ)) (Int.toNat_of_nonneg h1)).symm

theorem zero_grid (lot : ℚ) : gridMultiple 0 lot :=
  ⟨0, by simp⟩

end Planner

namespace Gates

theorem mem_insertDesc {d x : GateDecision} {l : List GateDecision}
    (h : x ∈ insertDesc d l) : x = d ∨ x ∈ l := by
  induction l with
  | nil => simpa [insertDesc] using h
  | cons e es ih =>
    unfold insertDesc at h
    split at h
    · rcases List.mem_cons.mp h with h1 | h1
      · exact Or.inl h1
      · exact Or.inr h1
    · rcases List.mem_cons.mp h with h1 | h1
      · exact Or.inr (h1 ▸ List.mem_cons_self _ _)
      · rcases ih h1 with h2 | h2
        · exact Or.inl h2
        · exact Or.inr (List.mem_cons_of_mem _ h2)

theorem mem_foldl_insertDesc :
    ∀ (l acc : List GateDecision) (x : GateDecision),
      x ∈ l.foldl (fun acc d => insertDesc d acc) acc → x ∈ acc ∨ x ∈ l := by
  intro l
  induction l with
  | nil => intro acc x h; exact Or.inl h
  | cons d ds ih =>
    intro acc x h
    rcases ih (insertDesc d acc) x h with h1 | h1
    · rcases mem_insertDesc h1 with h2 | h2
      · exact Or.inr (h2 ▸ List.mem_cons_self _ _)
      · exact Or.inl h2
    · exact Or.inr (List.mem_cons_of_mem _ h1)

theorem mem_of_mem_sortDesc {x : GateDecision} {l : List GateDecision}
    (h : x ∈ sortDesc l) : x ∈ l := by
  rcases mem_foldl_insertDesc l [] x h with h1 | h1
  · simp at h1
  · exact h1

theorem mem_of_mem_pySlice {α : Type} {n : ℤ} {l : List α} {x : α}
    (h : x ∈ pySlice n l) : x ∈ l := by
  unfold pySlice at h
  split at h <;> exact List.take_subset _ _ h

theorem gateCheck_props {g : QualityGates} {c : SetupCandidate} {d : GateDecision}
    (h : gateCheck g c = some d) :
    g.config.min_rr ≤ d.rr
    ∧ Flt.le (.fin g.config.entry_distance_pct.1) d.entry_distance_pct = true
    ∧ Flt.le d.entry_distance_pct (.fin g.config.entry_distance_pct.2) = true
    ∧ d.candidate.minutes_old ≤ g.config.max_setup_age_min
    ∧ g.config.min_volume_usd ≤ d.candidate.volume_usd_24h
    ∧ Flt.le d.spread_bps (.fin g.config.max_spread_bps) = true
    ∧ g.config.min_confluence ≤ (d.confluence : ℤ)
    ∧ g.config.min_score ≤ d.score := by
  unfold gateCheck at h
  dsimp only at h
  split at h
  · exact Option.noConfusion h
  · split at h
    · exact Option.noConfusion h
    · rename_i hrr
      split at h
      · exact Option.noConfusion h
      · rename_i hdist
        split at h
        · exact Option.noConfusion h
        · rename_i hage
          split at h
          · exact Option.noConfusion h
          · rename_i hvol
            split at h
            · exact Option.noConfusion h
            · rename_i hspread
              split at h
              · exact Option.noConfusion h
              · rename_i hconf
                split at h
                · exact Option.noConfusion h
                · rename_i hscore
                  obtain rfl := (Option.some.inj h).symm
                  have hd : Flt.lt (compute_entry_distance_pct c.price_current c.entry_near)
                        (.fin g.config.entry_distance_pct.1) = false
                      ∧ Flt.lt (.fin g.config.entry_distance_pct.2)
                        (compute_entry_distance_pct c.price_current c.entry_near) = false := by
                    constructor <;> simp_all
                  have hs : Flt.lt (.fin g.config.max_spread_bps)
                      (compute_spread_bps c.orderbook_bid c.orderbook_ask) = false := by
                    simp_all
                  exact ⟨not_lt.mp hrr, Flt.le_of_not_lt hd.1, Flt.le_of_not_lt hd.2,
                    not_lt.mp hage, not_lt.mp hvol, Flt.le_of_not_lt hs,
                    not_lt.mp hconf, not_lt.mp hscore⟩

theorem insertDesc_pairwise {d : GateDecision} {l : List GateDecision}
    (hl : List.Pairwise (fun a b => b.score ≤ a.score) l) :
    List.Pairwise (fun a b => b.score ≤ a.score) (insertDesc d l) := by
  induction l with
  | nil => simp [insertDesc]
  | cons e es ih =>
    unfold insertDesc
    rcases List.pairwise_cons.mp hl with ⟨he, hes⟩
    split
    · rename_i hlt
      refine List.pairwise_cons.mpr ⟨?_, hl⟩
      intro x hx
      rcases List.mem_cons.mp hx with h1 | h1
      · exact h1 ▸ hlt.le
      · exact le_trans (he x h1) hlt.le
    · rename_i hge
      refine List.pairwise_cons.mpr ⟨?_, ih hes⟩
      intro x hx
      rcases mem_insertDesc hx with h1 | h1
      · exact h1 ▸ not_lt.mp hge
      · exact he x h1

theorem foldl_insertDesc_pairwise :
    ∀ (l acc : List GateDecision),
      List.Pairwise (fun a b => b.score ≤ a.score) acc →
      List.Pairwise (fun a b => b.score ≤ a.score)
        (l.foldl (fun acc d => insertDesc d acc) acc) := by
  intro l
  induction l with
  | nil => intro acc h; exact h
  | cons d ds ih => intro acc h; exact ih (insertDesc d acc) (insertDesc_pairwise h)

theorem sortDesc_pairwise (l : List GateDecision) :
    List.Pairwise (fun a b => b.score ≤ a.score) (sortDesc l) :=
  foldl_insertDesc_pairwise l [] (List.Pairwise.nil)

theorem insertDesc_perm (d : GateDecision) (l : List GateDecision) :
    (insertDesc d l).Perm (d :: l) := by
  induction l with
  | nil => exact List.Perm.refl _
  | cons e es ih =>
    unfold insertDesc
    split
    · exact List.Perm.refl _
    · exact (ih.cons e).trans (List.Perm.swap d e es)

theorem foldl_insertDesc_perm :
    ∀ (l acc : List GateDecision),
      (l.foldl (fun acc d => insertDesc d acc) acc).Perm (acc ++ l) := by
  intro l
  induction l with
  | nil => intro acc; simp
  | cons d ds ih =>
    intro acc
    refine (ih (insertDesc d acc)).trans ?_
    have h1 : (insertDesc d acc ++ ds).Perm ((d :: acc) ++ ds) :=
      (insertDesc_perm d acc).append_right ds
    refine h1.trans ?_
    simp only [List.cons_append]
    exact List.perm_middle.symm

theorem sortDesc_perm (l : List GateDecision) : (sortDesc l).Perm l :=
  (foldl_insertDesc_perm l []).trans (by simp)

theorem filter_insertDesc (s : ℚ) {d : GateDecision} {l : List GateDecision}
    (hl : List.Pairwise (fun a b => b.score ≤ a.score) l) :
    (insertDesc d l).filter (fun e => decide (e.score = s))
      = l.filter (fun e => decide (e.score = s))
        ++ (if d.score = s then [d] else []) := by
  induction l with
  | nil =>
    by_cases hds : d.score = s <;> simp [insertDesc, List.filter, hds]
  | cons e es ih =>
    unfold insertDesc
    rcases List.pairwise_cons.mp hl with ⟨he, hes⟩
    split
    · rename_i hlt
      by_cases hds : d.score = s
      · have hnone : (e :: es).filter (fun x => decide (x.score = s)) = [] := by
          rw [List.filter_eq_nil_iff]
          intro x hx
          have hxlt : x.score < d.score := by
            rcases List.mem_cons.mp hx with h1 | h1
            · exact h1 ▸ hlt
            · exact lt_of_le_of_lt (he x h1) hlt
          have hne2 : x.score ≠ s := by rw [← hds]; exact hxlt.ne
          simpa using hne2
        rw [List.filter_cons_of_pos (by simpa using hds), hnone, if_pos hds]
        rfl
      · rw [List.filter_cons_of_neg (by simpa using hds), if_neg hds]
        simp
    · rename_i hge
      by_cases hes2 : e.score = s <;>
        simp [List.filter, hes2, ih hes, List.append_assoc]

theorem foldl_insertDesc_filter (s : ℚ) :
    ∀ (l acc : List GateDecision),
      List.Pairwise (fun a b => b.score ≤ a.score) acc →
      (l.foldl (fun acc d => insertDesc d acc) acc).filter (fun e => decide (e.score = s))
        = acc.filter (fun e => decide (e.score = s))
          ++ l.filter (fun e => decide (e.score = s)) := by
  intro l
  induction l with
  | nil => intro acc h; simp
  | cons d ds ih =>
    intro acc h
    rw [List.foldl_cons, ih (insertDesc d acc) (insertDesc_pairwise h),
      filter_insertDesc s h]
    by_cases hds : d.score = s <;> simp [List.filter, hds, List.append_assoc]

theorem sortDesc_filter (s : ℚ) (l : List GateDecision) :
    (sortDesc l).filter (fun e => decide (e.score = s))
      = l.filter (fun e => decide (e.score = s)) := by
  rw [sortDesc, foldl_insertDesc_filter s l [] List.Pairwise.nil]
  simp

end Gates

/-- C1 (confirmed): every decision returned by `QualityGates.evaluate`
satisfies all hard gates with the values recorded on it: `rr ≥ min_rr`, the
entry distance lies in `[lo, hi]`, the candidate is no older than
`max_setup_age_min`, its 24h volume is at least `min_volume_usd`, the spread
is at most `max_spread_bps`, the confluence count reaches `min_confluence`,
and the soft score reaches `min_score`. -/
theorem c1_hard_gates (g : Gates.QualityGates) (cands : List Gates.SetupCandidate)
    (d : Gates.GateDecision) (h : d ∈ Gates.evaluate g cands) :
    g.config.min_rr ≤ d.rr
    ∧ Flt.le (.fin g.config.entry_distance_pct.1) d.entry_distance_pct = true
    ∧ Flt.le d.entry_distance_pct (.fin g.config.entry_distance_pct.2) = true
    ∧ d.candidate.minutes_old ≤ g.config.max_setup_age_min
    ∧ g.config.min_volume_usd ≤ d.candidate.volume_usd_24h
    ∧ Flt.le d.spread_bps (.fin g.config.max_spread_bps) = true
    ∧ g.config.min_confluence ≤ (d.confluence : ℤ)
    ∧ g.config.min_score ≤ d.score := by
  unfold Gates.evaluate at h
  have h1 := Gates.mem_of_mem_sortDesc (Gates.mem_of_mem_pySlice h)
  obtain ⟨c, _, hc⟩ := List.mem_filterMap.mp h1
  exact Gates.gateCheck_props hc

/-- C8 (confirmed): `QualityGates.evaluate` returns the approved decisions
sorted by score descending with a stable tie-break on input order (the sorted
list filtered to any fixed score equals the pre-sort approved list so
filtered), truncated to at most `max_setups` entries. -/
theorem c8_evaluate_sorted (g : Gates.QualityGates) (cands : List Gates.SetupCandidate)
    (hms : 0 ≤ g.config.max_setups) :
    List.Pairwise (fun a b => b.score ≤ a.score) (Gates.evaluate g cands)
    ∧ ((Gates.evaluate g cands).length : ℤ) ≤ g.config.max_setups
    ∧ Gates.evaluate g cands
        = (Gates.sortDesc (Gates.approvedList g cands)).take g.config.max_setups.toNat
    ∧ (Gates.sortDesc (Gates.approvedList g cands)).Perm (Gates.approvedList g cands)
    ∧ (∀ s : ℚ,
        (Gates.sortDesc (Gates.approvedList g cands)).filter (fun d => decide (d.score = s))
          = (Gates.approvedList g cands).filter (fun d => decide (d.score = s))) := by
  have heval : Gates.evaluate g cands
      = (Gates.sortDesc (Gates.approvedList g cands)).take g.config.max_setups.toNat := by
    unfold Gates.evaluate Gates.pySlice
    rw [if_pos hms]
  refine ⟨?_, ?_, heval, Gates.sortDesc_perm _, fun s => Gates.sortDesc_filter s _⟩
  · rw [heval]
    exact (Gates.sortDesc_pairwise _).sublist (List.take_sublist _ _)
  · rw [heval]
    calc ((((Gates.sortDesc (Gates.approvedList g cands)).take
            g.config.max_setups.toNat).length : ℕ) : ℤ)
        ≤ (g.config.max_setups.toNat : ℤ) := by
          exact_mod_cast List.length_take_le _ _
      _ = g.config.max_setups := Int.toNat_of_nonneg hms

theorem gatesG1_check : Gates.gateCheck gatesG1 gatesC1 = some gatesD1 := by
  have hrr : Gates.compute_rr 102 100 106 .LONG = 2 := by norm_num [Gates.compute_rr]
  have hdist : Gates.compute_entry_distance_pct 100 102 = Flt.fin 2 := by
    norm_num [Gates.compute_entry_distance_pct]
  have hspread : Gates.compute_spread_bps 1000 1001 = Flt.fin (20000/2001) := by
    norm_num [Gates.compute_spread_bps]
  have hfresh : Gates.compute_freshness_weight gatesG1 0 = 1 := by
    norm_num [Gates.compute_freshness_weight, gatesG1]
  have hscore : Gates.calc_score gatesG1 gatesC1 2 1 = 290/3 := by
    simp [Gates.calc_score, Gates.flagsGet, dictGet, List.find?, gatesC1, gatesG1,
      gatesDefaultConfig, gatesDefaultWeights, Gates.f_bool, Gates.f_tf_align,
      Gates.f_regime, pyUpperStr, Gates.clip, Gates.f_rr, Gates.f_atr_band]
    norm_num
  have hscore2 : Gates.calc_score gatesG1 gatesC1 2
      (Gates.compute_freshness_weight gatesG1 0) = 290/3 := by rw [hfresh]; exact hscore
  have p1 : gatesG1.exchange = none := rfl
  have p2 : gatesG1.config.min_rr = 2 := rfl
  have p3 : gatesG1.config.entry_distance_pct = (1/2, 5) := rfl
  have p4 : gatesG1.config.max_setup_age_min = 90 := rfl
  have p5 : gatesG1.config.min_volume_usd = 100000 := rfl
  have p6 : gatesG1.config.max_spread_bps = 20 := rfl
  have p7 : gatesG1.config.min_confluence = 3 := rfl
  have p8 : gatesG1.config.min_score = 60 := rfl
  have q1 : gatesC1.entry_near = 102 := rfl
  have q2 : gatesC1.entry_stop = 100 := rfl
  have q3 : gatesC1.entry_tp1 = 106 := rfl
  have q4 : gatesC1.direction = .LONG := rfl
  have q5 : gatesC1.price_current = 100 := rfl
  have q6 : gatesC1.orderbook_bid = 1000 := rfl
  have q7 : gatesC1.orderbook_ask = 1001 := rfl
  have q8 : gatesC1.minutes_old = 0 := rfl
  have q9 : gatesC1.volume_usd_24h = 200000 := rfl
  have q10 : Gates.confluence_count gatesC1 = 4 := rfl
  have q11 : Gates.build_reasons gatesC1
      = ["HTF trend agrees", "BOS in favor", "OB quality", "FVG aligned",
         "RR and entry distance"] := by decide
  have q12 : gatesC1.touched_tfs = ([] : List String) := rfl
  unfold Gates.gateCheck
  rw [p1]
  simp only [p2, p3, p4, p5, p6, p7, p8, q1, q2, q3, q4, q5, q6, q7, q8, q9, q10, q11,
    q12, hrr, hdist, hspread, hscore2]
  norm_num [Flt.lt, gatesD1, hfresh]

theorem gatesG1_evaluate : Gates.evaluate gatesG1 [gatesC1] = [gatesD1] := by
  unfold Gates.evaluate Gates.approvedList
  have hms : gatesG1.config.max_setups = 5 := rfl
  rw [hms]
  simp [List.filterMap, gatesG1_check, Gates.sortDesc, Gates.insertDesc, Gates.pySlice]

/-- C1 witness: the hard-gate theorem applied to the concrete evaluator
`gatesG1` and candidate `gatesC1`, whose decision is `gatesD1`. -/
theorem c1_hard_gates_witness :
    gatesG1.config.min_rr ≤ gatesD1.rr
    ∧ Flt.le (.fin gatesG1.config.entry_distance_pct.1) gatesD1.entry_distance_pct = true
    ∧ Flt.le gatesD1.entry_distance_pct (.fin gatesG1.config.entry_distance_pct.2) = true
    ∧ gatesD1.candidate.minutes_old ≤ gatesG1.config.max_setup_age_min
    ∧ gatesG1.config.min_volume_usd ≤ gatesD1.candidate.volume_usd_24h
    ∧ Flt.le gatesD1.spread_bps (.fin gatesG1.config.max_spread_bps) = true
    ∧ gatesG1.config.min_confluence ≤ (gatesD1.confluence : ℤ)
    ∧ gatesG1.config.min_score ≤ gatesD1.score :=
  c1_hard_gates gatesG1 [gatesC1] gatesD1
    (by rw [gatesG1_evaluate]; exact List.mem_singleton.mpr rfl)

/-- C8 witness: the ordering theorem applied to the concrete evaluator and
one-candidate list of the C1 witness. -/
theorem c8_evaluate_sorted_witness :
    List.Pairwise (fun a b => b.score ≤ a.score) (Gates.evaluate gatesG1 [gatesC1])
    ∧ ((Gates.evaluate gatesG1 [gatesC1]).length : ℤ) ≤ gatesG1.config.max_setups
    ∧ Gates.evaluate gatesG1 [gatesC1]
        = (Gates.sortDesc (Gates.approvedList gatesG1 [gatesC1])).take
            gatesG1.config.max_setups.toNat
    ∧ (Gates.sortDesc (Gates.approvedList gatesG1 [gatesC1])).Perm
        (Gates.approvedList gatesG1 [gatesC1])
    ∧ ((Gates.sortDesc (Gates.approvedList gatesG1 [gatesC1])).filter
            (fun d => decide (d.score = 290/3))
          = (Gates.approvedList gatesG1 [gatesC1]).filter
            (fun d => decide (d.score = 290/3))) :=
  let h := c8_evaluate_sorted gatesG1 [gatesC1] (by decide)
  ⟨h.1, h.2.1, h.2.2.1, h.2.2.2.1, h.2.2.2.2 (290/3)⟩

/-- C4 (corrected): with a positive lot size, every quantity emitted by
`position_size_leverage` is a non-negative integer multiple of `lot_size` —
but the grid snapping is Python's `round` (nearest, half to even, with a
one-lot minimum), not rounding down, and the min-notional bump re-rounds
`min_notional / price` to the nearest lot, which can leave
`qty × price < min_notional` with `qty ≠ 0`. -/
theorem c4_sizing_amended (entry stop : ℚ) (side : String)
    (leverage price risk_usd lot_size min_notional maint_margin_rate atr : ℚ)
    (cfg : Planner.SizingCfg) (r : Planner.SizeResult)
    (hlot : 0 < lot_size)
    (h : Planner.position_size_leverage entry stop side leverage price risk_usd lot_size
      min_notional maint_margin_rate atr cfg = .ok r) :
    Planner.gridMultiple r.qty lot_size := by
  have hl2 : max lot_size 0 = lot_size := max_eq_left hlot.le
  have hne : lot_size ≠ 0 := ne_of_gt hlot
  unfold Planner.position_size_leverage at h
  dsimp only at h
  rw [hl2] at h
  simp only [hne, ne_eq, not_false_eq_true, if_true, ite_true] at h
  repeat' (split at h)
  all_goals
    first
      | exact Except.noConfusion h
      | (obtain rfl := (Except.ok.inj h).symm
         first
           | exact Planner.zero_grid lot_size
           | exact Planner.round_qty_grid _ hlot)

/-- C4 witness: the amended theorem at a concrete call whose emitted quantity
is `15 = 3 × 5`. -/
theorem c4_sizing_witness :
    Planner.gridMultiple
      (Planner.SizeResult.mk 15 90 false "liq safely below stop").qty 5 :=
  c4_sizing_amended 100 99 "LONG" 10 1 13 5 0 0 0 ⟨0, 0, false, false⟩
    ⟨15, 90, false, "liq safely below stop"⟩ (by norm_num)
    (by norm_num [Planner.position_size_leverage, Planner.round_qty, pyRound,
      Planner.estimate_liq_price, Planner.liq_is_safe, Planner.buffersOf])

/-- C4 counterexample: two concrete calls against the claim as stated.
With `risk_usd = 13`, `|entry − stop| = 1`, `lot_size = 5` the computed
quantity `13` is snapped to `15`, not to the round-down value
`⌊13/5⌋ × 5 = 10`; and with `min_notional = 2.4`, `price = 1`, `lot_size = 1`
the emitted quantity is `2`, so `qty × price = 2 < 2.4` even though
`qty ≠ 0`. -/
theorem c4_sizing_counterexample :
    ((Planner.position_size_leverage 100 99 "LONG" 10 1 13 5 0 0 0
        ⟨0, 0, false, false⟩).map (fun r => r.qty) = .ok 15
      ∧ (15 : ℚ) ≠ ((⌊(13 : ℚ) / 5⌋ : ℚ) * 5))
    ∧ ((Planner.position_size_leverage 100 95 "LONG" 10 1 10 1 (12/5) 0 0
        ⟨0, 0, false, false⟩).map (fun r => r.qty) = .ok 2
      ∧ (2 : ℚ) * 1 < 12/5 ∧ (2 : ℚ) ≠ 0) := by
  refine ⟨⟨?_, ?_⟩, ?_, ?_, ?_⟩
  · norm_num [Planner.position_size_leverage, Planner.round_qty, pyRound,
      Planner.estimate_liq_price, Planner.liq_is_safe, Planner.buffersOf, Except.map]
  · norm_num
  · norm_num [Planner.position_size_leverage, Planner.round_qty, pyRound,
      Planner.estimate_liq_price, Planner.liq_is_safe, Planner.buffersOf, Except.map]
  · norm_num
  · norm_num

/-- C3 (corrected): for any plan, config, venue behaviour and starting
document, the sequence of statuses persisted under the plan id is either
`intent, working, filled` (the initial placement succeeded — a fallback
failure only logs) or `intent, rejected` (the initial placement raised).
Statuses never revert, but a rejection skips `working`. -/
theorem c3_status_trace_amended (plan : Executor.Plan) (cfg : Executor.AutotraderCfg)
    (placeFn : Phemex.VenueOrder → String → Except String Phemex.OrderPayload)
    (uuid : String) (now : ℚ) (state0 : Executor.OrdersState) :
    (Executor.execute_plan plan cfg placeFn uuid now state0).2.2
      = ["intent", "working", "filled"]
    ∨ (Executor.execute_plan plan cfg placeFn uuid now state0).2.2
      = ["intent", "rejected"] := by
  unfold Executor.execute_plan
  dsimp only
  split
  · right; rfl
  · left; rfl

/-- C3 counterexample: when the venue's limit placement raises, the persisted
status sequence is `intent, rejected`, which is not a prefix of
`intent, working, {filled|rejected|canceled|amended}` — it skips `working`. -/
theorem c3_status_trace_counterexample :
    (Executor.execute_plan c3failPlan ⟨none, none⟩ (fun _ _ => .error "network down")
        "p1" 0 []).2.2 = ["intent", "rejected"]
    ∧ ["intent", "rejected"] ∉ Executor.claimStatusTraces := by
  constructor
  · rfl
  · decide

/-- C6 (corrected): the far plan never carries `valid_until_ms`: the guard
that would copy the maker timeout onto a limit far leg also requires the near
leg not to be a limit while requiring the fallback record, which exists only
when the near leg is a limit, so it can never fire.  A limit near leg carries
`valid_until_ms = now + timeout` and installs the `maker_timeout` stop
fallback. -/
theorem c6_far_timeout_amended (near far : Execution.EntryLeg) (now_ts_ms : ℤ)
    (cfg : Execution.ExecCfg) :
    (Execution.decide_execution near far now_ts_ms cfg).far_plan.valid_until_ms = none
    ∧ (Execution.decide_execution near far now_ts_ms cfg).near_plan.valid_until_ms
        = (if near.type = some "limit" then some (now_ts_ms + Execution.timeoutMs cfg)
           else none)
    ∧ (Execution.decide_execution near far now_ts_ms cfg).fallback
        = (if near.type = some "limit" then
             some ⟨Execution.timeoutMs cfg, "stop", near.price, "maker_timeout"⟩
           else none) := by
  unfold Execution.decide_execution
  by_cases hn : near.type = some "limit"
  · simp [hn]
  · simp [hn]

/-- C6 counterexample: with a limit near leg and a limit far leg (the claim's
scenario: the far entry has type `limit`), the returned far plan carries no
`valid_until_ms` at all, contradicting `valid_until_ms = now + timeout`. -/
theorem c6_far_timeout_counterexample :
    (Execution.decide_execution
        ⟨some "limit", some 100, some true, some "test"⟩
        ⟨some "limit", some 101, some true, some "far"⟩
        1000 ⟨some 60⟩).far_plan.valid_until_ms = none
    ∧ (Execution.decide_execution
        ⟨some "limit", some 100, some true, some "test"⟩
        ⟨some "limit", some 101, some true, some "far"⟩
        1000 ⟨some 60⟩).far_plan.valid_until_ms
      ≠ some (1000 + Execution.timeoutMs ⟨some 60⟩) := by
  constructor
  · rfl
  · rw [show (Execution.decide_execution
        ⟨some "limit", some 100, some true, some "test"⟩
        ⟨some "limit", some 101, some true, some "far"⟩
        1000 ⟨some 60⟩).far_plan.valid_until_ms = none from rfl]
    simp

/-- C2 (confirmed): on the paper venue, two `place` calls with the same fresh
idempotency key return the identical order payload (in particular the same
`orderID`); the first call creates exactly one order and the second leaves the
venue state untouched. -/
theorem c2_place_idempotent (s : Phemex.PaperState) (o : Phemex.VenueOrder) (k : String)
    (id1 : String) (ts1 : ℚ) (o2 : Phemex.VenueOrder) (id2 : String) (ts2 : ℚ)
    (r1 : Phemex.OrderPayload) (s1 : Phemex.PaperState)
    (r2 : Phemex.OrderPayload) (s2 : Phemex.PaperState)
    (hkey : dictGet s.id_map k = none) (hid : dictGet s.orders id1 = none)
    (h1 : Phemex.place s o k id1 ts1 = .ok (r1, s1))
    (h2 : Phemex.place s1 o2 k id2 ts2 = .ok (r2, s2)) :
    r2 = r1 ∧ r2.orderID = r1.orderID ∧ s2 = s1
    ∧ s1.orders.length = s.orders.length + 1 := by
  unfold Phemex.place at h1
  rw [hkey] at h1
  simp only at h1
  obtain ⟨hr1, hs1⟩ := Prod.mk.inj (Except.ok.inj h1)
  unfold Phemex.place at h2
  rw [← hs1] at h2
  simp only [dictGet_dictSet_self] at h2
  obtain ⟨hr2, hs2⟩ := Prod.mk.inj (Except.ok.inj h2)
  refine ⟨?_, ?_, ?_, ?_⟩
  · rw [← hr2, ← hr1]
  · rw [← hr2, ← hr1]
  · rw [← hs2, ← hs1]
  · rw [← hs1]
    exact length_dictSet_of_fresh _ hid

/-- C2 witness: the idempotency theorem applied to a concrete pair of `place`
calls (same key, different candidate order ids) against an empty paper
venue. -/
theorem c2_place_idempotent_witness :
    c2payload2 = c2payload1 ∧ c2payload2.orderID = c2payload1.orderID
    ∧ c2state2 = c2state1
    ∧ c2state1.orders.length = (⟨[], []⟩ : Phemex.PaperState).orders.length + 1 :=
  c2_place_idempotent ⟨[], []⟩ c2order "snp_1_limit" "oid-a" 0 c2order "oid-b" 1
    c2payload1 c2state1 c2payload2 c2state2 rfl rfl rfl rfl

/-- C7 (corrected): `normalize_symbol_for_exchange` uppercases and replaces
only `-` with `/`; when the cleaned input contains no `-` and no `/` the whole
body becomes the base and the quote defaults to `USDT` — there is no
quote-tail splitting and `:` / interior whitespace are not separators, so
`btc-usdt ↦ BTC/USDT` but `btc:usdt ↦ BTC:USDT/USDT`. -/
theorem c7_normalize_amended :
    (∀ s : Symbols.Str, '-' ∉ s → '/' ∉ s → Symbols.pyStrip s ≠ [] →
      Symbols.normalize_symbol_for_exchange s =
        .ok (Symbols.pyUpper (Symbols.pyStrip s) ++ '/' :: "USDT".data))
    ∧ Symbols.normalize_symbol_for_exchange "btc-usdt".data = .ok "BTC/USDT".data
    ∧ Symbols.normalize_symbol_for_exchange " eth/usdt ".data = .ok "ETH/USDT".data
    ∧ Symbols.normalize_symbol_for_exchange "btc:usdt".data = .ok "BTC:USDT/USDT".data := by
  refine ⟨fun s hd hs hne => Symbols.normalize_of_no_separator hd hs hne, ?_, ?_, ?_⟩
  · rfl
  · rfl
  · rfl

/-- C7 witness: the general no-separator clause of the theorem applied to the
concrete input `"btcusdt"`. -/
theorem c7_normalize_witness :
    Symbols.normalize_symbol_for_exchange "btcusdt".data =
      .ok (Symbols.pyUpper (Symbols.pyStrip "btcusdt".data) ++ '/' :: "USDT".data) :=
  c7_normalize_amended.1 "btcusdt".data (by decide) (by decide) (by decide)

/-- C7 counterexample: the claim predicts that an input with no separator and
a known 4-character quote tail is split into `BASE/QUOTE` (`btcusdt ↦
BTC/USDT`); the code instead keeps the whole body as the base, producing
`BTCUSDT/USDT`. -/
theorem c7_normalize_counterexample :
    Symbols.normalize_symbol_for_exchange "btcusdt".data = .ok "BTCUSDT/USDT".data
    ∧ Symbols.normalize_symbol_for_exchange "btcusdt".data ≠ .ok "BTC/USDT".data := by
  constructor
  · rfl
  · intro h
    rw [show Symbols.normalize_symbol_for_exchange "btcusdt".data
          = .ok "BTCUSDT/USDT".data from rfl] at h
    exact absurd (Except.ok.inj h) (by decide)

/-! ### Scoring: evaluation helpers for the direction enumeration -/

theorem decideDir_ll : (decide (Gates.TradeDirection.LONG = Gates.TradeDirection.LONG)) = true := rfl

theorem decideDir_ls : (decide (Gates.TradeDirection.LONG = Gates.TradeDirection.SHORT)) = false := rfl

theorem decideDir_ln : (decide (Gates.TradeDirection.LONG = Gates.TradeDirection.NEUTRAL)) = false := rfl

theorem decideDir_sl : (decide (Gates.TradeDirection.SHORT = Gates.TradeDirection.LONG)) = false := rfl

theorem decideDir_ss : (decide (Gates.TradeDirection.SHORT = Gates.TradeDirection.SHORT)) = true := rfl

theorem decideDir_sn : (decide (Gates.TradeDirection.SHORT = Gates.TradeDirection.NEUTRAL)) = false := rfl

theorem decideDir_nl : (decide (Gates.TradeDirection.NEUTRAL = Gates.TradeDirection.LONG)) = false := rfl

theorem decideDir_ns : (decide (Gates.TradeDirection.NEUTRAL = Gates.TradeDirection.SHORT)) = false := rfl

theorem decideDir_nn : (decide (Gates.TradeDirection.NEUTRAL = Gates.TradeDirection.NEUTRAL)) = true := rfl

theorem beqDir_ll : (Gates.TradeDirection.LONG == Gates.TradeDirection.LONG) = true := rfl

theorem beqDir_ls : (Gates.TradeDirection.LONG == Gates.TradeDirection.SHORT) = false := rfl

theorem beqDir_ln : (Gates.TradeDirection.LONG == Gates.TradeDirection.NEUTRAL) = false := rfl

theorem beqDir_sl : (Gates.TradeDirection.SHORT == Gates.TradeDirection.LONG) = false := rfl

theorem beqDir_ss : (Gates.TradeDirection.SHORT == Gates.TradeDirection.SHORT) = true := rfl

theorem beqDir_sn : (Gates.TradeDirection.SHORT == Gates.TradeDirection.NEUTRAL) = false := rfl

theorem beqDir_nl : (Gates.TradeDirection.NEUTRAL == Gates.TradeDirection.LONG) = false := rfl

theorem beqDir_ns : (Gates.TradeDirection.NEUTRAL == Gates.TradeDirection.SHORT) = false := rfl

theorem beqDir_nn : (Gates.TradeDirection.NEUTRAL == Gates.TradeDirection.NEUTRAL) = true := rfl

theorem neDir_ls : Gates.TradeDirection.LONG ≠ Gates.TradeDirection.SHORT := by decide

theorem neDir_ln : Gates.TradeDirection.LONG ≠ Gates.TradeDirection.NEUTRAL := by decide

theorem neDir_sl : Gates.TradeDirection.SHORT ≠ Gates.TradeDirection.LONG := by decide

theorem neDir_sn : Gates.TradeDirection.SHORT ≠ Gates.TradeDirection.NEUTRAL := by decide

theorem neDir_nl : Gates.TradeDirection.NEUTRAL ≠ Gates.TradeDirection.LONG := by decide

theorem neDir_ns : Gates.TradeDirection.NEUTRAL ≠ Gates.TradeDirection.SHORT := by decide

/-- An `ok` result of the pydantic constructor carries exactly the `rr`
argument in its `rr` field (and, the `rr ≤ 0` guard having passed, that
argument was positive). -/
theorem mkTradeSetup_rr {symbol exchange direction : String} {score confidence : ℚ}
    {entry_plan : List ℚ} {stop_loss : ℚ} {take_profits : List ℚ} {rr : ℚ}
    {reasons : List String} {time_ms : ℤ} {tc : List (String × String)}
    {isum : List Scoring.IndicatorSummary} {lz : List Scoring.LiquidationSummary}
    {md : Scoring.SetupMetadata} {s : Scoring.TradeSetup}
    (h : Scoring.mkTradeSetup symbol exchange direction score confidence entry_plan
      stop_loss take_profits rr reasons time_ms tc isum lz md = .ok s) :
    s.rr = rr := by
  unfold Scoring.mkTradeSetup at h
  by_cases h1 : ¬(direction = "LONG" ∨ direction = "SHORT")
  · rw [if_pos h1] at h; exact Except.noConfusion h
  rw [if_neg h1] at h
  by_cases h2 : score < 0 ∨ 100 < score
  · rw [if_pos h2] at h; exact Except.noConfusion h
  rw [if_neg h2] at h
  by_cases h3 : confidence < 0 ∨ 1 < confidence
  · rw [if_pos h3] at h; exact Except.noConfusion h
  rw [if_neg h3] at h
  by_cases h4 : entry_plan = []
  · rw [if_pos h4] at h; exact Except.noConfusion h
  rw [if_neg h4] at h
  by_cases h5 : stop_loss ≤ 0
  · rw [if_pos h5] at h; exact Except.noConfusion h
  rw [if_neg h5] at h
  by_cases h6 : take_profits = []
  · rw [if_pos h6] at h; exact Except.noConfusion h
  rw [if_neg h6] at h
  by_cases h7 : rr ≤ 0
  · rw [if_pos h7] at h; exact Except.noConfusion h
  rw [if_neg h7] at h
  by_cases h8 : reasons = []
  · rw [if_pos h8] at h; exact Except.noConfusion h
  rw [if_neg h8] at h
  by_cases h9 : time_ms < 0
  · rw [if_pos h9] at h; exact Except.noConfusion h
  rw [if_neg h9] at h
  cases entry_plan with
  | nil => exact Except.noConfusion h
  | cons p tail =>
    dsimp only at h
    by_cases hd : direction = "LONG"
    · rw [if_pos hd] at h
      by_cases he : p ≤ stop_loss
      · rw [if_pos he] at h; exact Except.noConfusion h
      rw [if_neg he] at h
      by_cases ht : (take_profits.any fun tp => decide (tp ≤ p)) = true
      · rw [if_pos ht] at h; exact Except.noConfusion h
      rw [if_neg ht] at h
      obtain rfl := (Except.ok.inj h).symm; rfl
    · rw [if_neg hd] at h
      by_cases he : stop_loss ≤ p
      · rw [if_pos he] at h; exact Except.noConfusion h
      rw [if_neg he] at h
      by_cases ht : (take_profits.any fun tp => decide (p ≤ tp)) = true
      · rw [if_pos ht] at h; exact Except.noConfusion h
      rw [if_neg ht] at h
      obtain rfl := (Except.ok.inj h).symm; rfl

/-- Evaluation of the per-timeframe loop on the C10 witness inputs. -/
theorem c10collect : Scoring.collectSignals c10calc c10data
    = ([⟨"RSI", 25, .LONG, 1, "15m"⟩], [("15m", .LONG)]) := by
  simp [Scoring.collectSignals, c10calc, c10data, Scoring.determine_dominant_direction,
    Scoring.longStrength, Scoring.shortStrength, List.filter]

/-- Full evaluation of `score_setup` on the C10 witness inputs. -/
theorem c10eval : Scoring.score_setup c10calc scoringZeroLiq "BTC/USDT" "phemex" c10data 100 0
    = .ok (some c10setup) := by
  simp only [Scoring.score_setup, c10collect]
  norm_num [Scoring.determine_dominant_direction, Scoring.longStrength, Scoring.shortStrength,
    Scoring.calculate_indicator_score, Scoring.calculate_timeframe_confluence,
    Scoring.calculate_liquidation_score, Scoring.calculate_confidence,
    Scoring.generate_reasons, Scoring.baselineGeometry, Scoring.baselineRR,
    Scoring.mkTradeSetup, Scoring.directionValue, scoringZeroLiq, c10setup, List.filter,
    decideDir_ll, decideDir_ls, decideDir_ln, decideDir_sl, decideDir_ss, decideDir_sn,
    decideDir_nl, decideDir_ns, decideDir_nn,
    beqDir_ll, beqDir_ls, beqDir_ln, beqDir_sl, beqDir_ss, beqDir_sn,
    beqDir_nl, beqDir_ns, beqDir_nn,
    neDir_ls, neDir_ln, neDir_sl, neDir_sn, neDir_nl, neDir_ns,
    List.count_cons, List.count_nil]
  simp

/-- C10: every `TradeSetup` emitted by `ConfluenceScorer.score_setup` carries
a strictly positive `rr`, and the emitted `rr` is exactly the baseline
reward/risk ratio of the overall direction when that ratio is positive and
the `0.01` fallback otherwise — degenerate geometry is never a reason to
discard the setup. -/
theorem c10_rr_positive {α : Type} (calcAll : List α → List Scoring.IndicatorSignal)
    (getLiq : String → ℚ → List Scoring.LiquidationData) (symbol exchange : String)
    (tfdata : List (String × List α)) (price : ℚ) (now : ℤ) (s : Scoring.TradeSetup)
    (h : Scoring.score_setup calcAll getLiq symbol exchange tfdata price now
      = .ok (some s)) :
    0 < s.rr ∧
    s.rr = (if 0 < Scoring.baselineRR
          (Scoring.determine_dominant_direction (Scoring.collectSignals calcAll tfdata).1) price
        then Scoring.baselineRR
          (Scoring.determine_dominant_direction (Scoring.collectSignals calcAll tfdata).1) price
        else 1/100) := by
  unfold Scoring.score_setup at h
  dsimp only at h
  repeat' (split at h)
  all_goals first
    | exact Option.noConfusion (Except.ok.inj h)
    | exact Except.noConfusion h
    | skip
  rename_i s' heq
  obtain rfl := Option.some.inj (Except.ok.inj h)
  rw [mkTradeSetup_rr heq]
  refine ⟨?_, rfl⟩
  split
  · assumption
  · norm_num

/-- C10 witness: the theorem applied to the concrete one-signal scenario,
whose emitted setup carries `rr = 1 > 0`. -/
theorem c10_rr_positive_witness :
    0 < c10setup.rr ∧
    c10setup.rr = (if 0 < Scoring.baselineRR
          (Scoring.determine_dominant_direction (Scoring.collectSignals c10calc c10data).1) 100
        then Scoring.baselineRR
          (Scoring.determine_dominant_direction (Scoring.collectSignals c10calc c10data).1) 100
        else 1/100) :=
  c10_rr_positive c10calc scoringZeroLiq "BTC/USDT" "phemex" c10data 100 0 c10setup c10eval

/-- Evaluation of the per-timeframe loop on the C5 scenario inputs: the tied
`4h` timeframe enters the dominant-direction mapping as `NEUTRAL`. -/
theorem c5collect : Scoring.collectSignals c5calc c5data
    = ([⟨"RSI", 25, .LONG, 1, "1h"⟩, ⟨"MACD", 1, .LONG, 1/2, "4h"⟩,
        ⟨"EMA", 1, .SHORT, 1/2, "4h"⟩],
       [("1h", .LONG), ("4h", .NEUTRAL)]) := by
  simp [Scoring.collectSignals, c5calc, c5data, Scoring.determine_dominant_direction,
    Scoring.longStrength, Scoring.shortStrength, List.filter, List.replicate_succ]

/-- Full evaluation of `score_setup` on the C5 scenario inputs. -/
theorem c5eval : Scoring.score_setup c5calc c5liq "BTC/USDT" "phemex" c5data 100 0
    = .ok (some c5setup) := by
  simp only [Scoring.score_setup, c5collect]
  norm_num [Scoring.determine_dominant_direction, Scoring.longStrength, Scoring.shortStrength,
    Scoring.calculate_indicator_score, Scoring.calculate_timeframe_confluence,
    Scoring.calculate_liquidation_score, Scoring.calculate_confidence,
    Scoring.generate_reasons, Scoring.baselineGeometry, Scoring.baselineRR,
    Scoring.mkTradeSetup, Scoring.directionValue, c5liq, c5setup, List.filter,
    decideDir_ll, decideDir_ls, decideDir_ln, decideDir_sl, decideDir_ss, decideDir_sn,
    decideDir_nl, decideDir_ns, decideDir_nn,
    beqDir_ll, beqDir_ls, beqDir_ln, beqDir_sl, beqDir_ss, beqDir_sn,
    beqDir_nl, beqDir_ns, beqDir_nn,
    neDir_ls, neDir_ln, neDir_sl, neDir_sn, neDir_nl, neDir_ns,
    List.count_cons, List.count_nil]
  simp
  norm_num [min_def]

/-- C5 (amended): a timeframe whose summed LONG strength ties its summed
SHORT strength gets dominant direction `NEUTRAL`, but it is *retained* in the
timeframe-confluence mapping rather than dropped: a qualifying timeframe
(≥ 50 rows, at least one signal) always prepends its dominant direction to
the mapping, and appending a `NEUTRAL` timeframe strictly lowers the
confluence score whenever some timeframe is LONG- or SHORT-dominant, because
the tied timeframe enters the denominator of the confluence fraction. -/
theorem c5_tie_neutral_amended :
    (∀ signals : List Scoring.IndicatorSignal,
      Scoring.longStrength signals = Scoring.shortStrength signals →
      Scoring.determine_dominant_direction signals = .NEUTRAL)
    ∧ (∀ (α : Type) (calcAll : List α → List Scoring.IndicatorSignal) (tf : String)
        (md : List α) (rest : List (String × List α)),
        ¬ md.length < 50 →
        (calcAll md).map (fun s => { s with timeframe := tf }) ≠ [] →
        (Scoring.collectSignals calcAll ((tf, md) :: rest)).2
          = (tf, Scoring.determine_dominant_direction
              ((calcAll md).map (fun s => { s with timeframe := tf })))
            :: (Scoring.collectSignals calcAll rest).2)
    ∧ (∀ (m : List (String × Gates.TradeDirection)) (tf : String),
        0 < max ((m.map Prod.snd).count Gates.TradeDirection.LONG)
                ((m.map Prod.snd).count Gates.TradeDirection.SHORT) →
        Scoring.calculate_timeframe_confluence (m ++ [(tf, Gates.TradeDirection.NEUTRAL)])
          < Scoring.calculate_timeframe_confluence m) := by
  refine ⟨?_, ?_, ?_⟩
  · intro s h
    unfold Scoring.determine_dominant_direction
    rw [h]
    simp
  · intro α calcAll tf md rest h50 hne
    simp only [Scoring.collectSignals]
    rw [if_neg h50]
    dsimp only
    rw [if_pos hne]
  · intro m tf h
    have hm : m ≠ [] := by
      rintro rfl
      simp at h
    have hlen : 0 < m.length := List.length_pos.mpr hm
    unfold Scoring.calculate_timeframe_confluence
    rw [if_neg (by simp), if_neg hm]
    dsimp only
    simp only [List.map_append, List.count_append, List.length_append, List.map_cons,
      List.map_nil, List.length_cons, List.length_nil, List.count_cons, List.count_nil,
      beqDir_nl, beqDir_ns]
    simp only [if_false, Nat.add_zero, Nat.zero_add]
    apply mul_lt_mul_of_pos_right _ (by norm_num : (0:ℚ) < 100)
    apply div_lt_div_of_pos_left
    · exact_mod_cast h
    · simp only [List.length_map]
      exact_mod_cast hlen
    · push_cast
      linarith

/-- C5 witness: the amended theorem applied to concrete inputs — a tied
signal pair is `NEUTRAL`, the tied `4h` timeframe is prepended to the
mapping, and appending a `NEUTRAL` timeframe to a one-element LONG mapping
strictly lowers the confluence score. -/
theorem c5_tie_neutral_witness :
    Scoring.determine_dominant_direction
        [⟨"a", 0, .LONG, 1, "1h"⟩, ⟨"b", 0, .SHORT, 1, "1h"⟩] = .NEUTRAL
    ∧ (Scoring.collectSignals c5calc [("4h", List.replicate 50 1)]).2
        = (("4h", Scoring.determine_dominant_direction
            ((c5calc (List.replicate 50 1)).map (fun s => { s with timeframe := "4h" })))
          :: (Scoring.collectSignals c5calc []).2)
    ∧ Scoring.calculate_timeframe_confluence
        ([("1h", Gates.TradeDirection.LONG)] ++ [("4h", Gates.TradeDirection.NEUTRAL)])
      < Scoring.calculate_timeframe_confluence [("1h", Gates.TradeDirection.LONG)] :=
  ⟨c5_tie_neutral_amended.1 _
     (by simp [Scoring.longStrength, Scoring.shortStrength, List.filter]),
   c5_tie_neutral_amended.2.1 ℕ c5calc "4h" (List.replicate 50 1) [] (by simp)
     (by simp [c5calc, List.replicate_succ]),
   c5_tie_neutral_amended.2.2 [("1h", Gates.TradeDirection.LONG)] "4h" (by decide)⟩

/-- C5 counterexample: on the concrete scenario the `4h` timeframe is exactly
tied, yet the emitted setup retains `("4h", "NEUTRAL")` in its
timeframe-confluence mapping and records confluence score 50 — whereas the
mapping without the tied timeframe scores 100, so the tied timeframe was
neither dropped nor kept out of the confluence fraction. -/
theorem c5_tie_neutral_counterexample :
    Scoring.longStrength ((c5calc (List.replicate 50 1)).map fun s => { s with timeframe := "4h" })
      = Scoring.shortStrength
          ((c5calc (List.replicate 50 1)).map fun s => { s with timeframe := "4h" })
    ∧ Scoring.score_setup c5calc c5liq "BTC/USDT" "phemex" c5data 100 0 = .ok (some c5setup)
    ∧ ("4h", "NEUTRAL") ∈ c5setup.timeframe_confluence
    ∧ c5setup.metadata.confluence_score = 50
    ∧ Scoring.calculate_timeframe_confluence [("1h", Gates.TradeDirection.LONG)] = 100 := by
  refine ⟨by simp [c5calc, Scoring.longStrength, Scoring.shortStrength, List.filter,
      List.replicate_succ], c5eval, by simp [c5setup], rfl, ?_⟩
  norm_num [Scoring.calculate_timeframe_confluence, List.count_cons, List.count_nil,
    beqDir_ll, beqDir_sl, neDir_ls, neDir_sl]

end SnipeTrade
